import Mathlib

/-!
Verification of the wechat_publisher_web publishing pipeline.

This file is a shallow embedding, in Lean 4, of the core of the
`wechat_publisher_web` repository:

* `publishing_engine/core/payload_builder.py` (`generate_digest`,
  `build_draft_payload`),
* `publishing_engine/core/metadata_reader.py`
  (`extract_metadata_and_content`),
* `publishing_engine/utils/hashing_checking.py` (`calculate_file_hash`),
* `publishing_engine/core/html_processor.py` (`_remove_heading_ids`,
  `_wrap_heading_content`, `_find_and_replace_local_images`,
  `process_html_content`),
* `publisher/services.py` (`start_processing_job`,
  `confirm_and_publish_job`, `_wechat_image_uploader_callback`),
* `publisher/models.py` (`PublishingJob`).

Pure Python functions become Lean functions.  Effectful code (the Django
ORM saves, the Django cache, the remote WeChat HTTP API, the filesystem)
is modelled by explicit state passing: an environment record supplies the
outcome of each external call, call counters record which remote calls
were made, and the persisted `PublishingJob` row is the `Job` value each
operation returns.  Python exceptions become `Except` results.
-/

namespace WPW

/-! ## Python string primitives

Small executable models of the Python `str` operations the sources use:
`str.strip()`, slicing `s[a:b]`, `s[a:]`, `str.startswith`, and
`str.find(needle, start)`. -/

/-- Characters stripped by Python `str.strip()`. -/
def isPySpace (c : Char) : Bool :=
  c == ' ' || c == '\t' || c == '\n' || c == '\r' || c == '\x0b' || c == '\x0c'

/-- Python `s.strip()`. -/
def pyStrip (s : String) : String :=
  ⟨((s.data.dropWhile isPySpace).reverse.dropWhile isPySpace).reverse⟩

/-- Python `s[:n]` (character based, as in Python). -/
def pyTake (s : String) (n : Nat) : String :=
  ⟨s.data.take n⟩

/-- Python `s[a:b]` for `0 ≤ a ≤ b` (empty when `b ≤ a`, as in Python). -/
def pySlice (s : String) (a b : Nat) : String :=
  ⟨(s.data.drop a).take (b - a)⟩

/-- Python `s[a:]`. -/
def pyDrop (s : String) (a : Nat) : String :=
  ⟨s.data.drop a⟩

/-- Python `s.startswith(pre)`. -/
def pyStartsWith (s pre : String) : Bool :=
  pre.data.isPrefixOf s.data

/-- Scan helper for `pyFind`: first index `≥ i` at which `needle` occurs. -/
def findSubAux (needle : List Char) : List Char → Nat → Option Nat
  | [], i => if needle.isEmpty then some i else none
  | c :: rest, i =>
      if needle.isPrefixOf (c :: rest) then some i
      else findSubAux needle rest (i + 1)

/-- Python `hay.find(needle, start)`; `none` models the `-1` result. -/
def pyFind (hay needle : String) (start : Nat) : Option Nat :=
  findSubAux needle.data (hay.data.drop start) start

/-! ## Dynamic values and metadata maps

Markdown frontmatter parses, in the source, to a Python `dict` of dynamic
values.  `Val` models the value types the pipeline actually inspects, and
`Val.falsy` models Python truthiness (`not v`). -/

inductive Val where
  | vStr (s : String)
  | vInt (n : Int)
  | vBool (b : Bool)
  | vNull
deriving Repr, DecidableEq

/-- Python falsiness (`not v`) for the value types modelled. -/
def Val.falsy : Val → Bool
  | .vStr s => s.isEmpty
  | .vInt n => n == 0
  | .vBool b => !b
  | .vNull => true

/-- A Python `dict` with string keys, as an association list (keys are
unique in a `dict`; the first binding is the authoritative one). -/
abbrev Metadata := List (String × Val)

/-- Python `metadata.get(k)` (`None` when absent). -/
def Metadata.getVal (m : Metadata) (k : String) : Option Val :=
  (m.find? (fun p => p.1 == k)).map (·.2)

/-- Python `metadata[k] = v`. -/
def Metadata.setVal (m : Metadata) (k : String) (v : Val) : Metadata :=
  if m.any (fun p => p.1 == k) then
    m.map (fun p => if p.1 == k then (k, v) else p)
  else m ++ [(k, v)]

/-- Python `metadata.get(k, dflt)` in positions where the source then
treats the value as a string (the source only ever stores strings under
these keys; a non-string value would make the Python `.strip()` call
fail, which is outside the modelled behaviour). -/
def metaGetStr (m : Metadata) (k : String) (dflt : String) : String :=
  match Metadata.getVal m k with
  | some (.vStr s) => s
  | some _ => dflt
  | none => dflt

/-- Python truthiness of an optional string field (`None` and `""` are
falsy). -/
def optStrTruthy : Option String → Bool
  | some s => !s.isEmpty
  | none => false

/-! ## `payload_builder.py` -/

/-- `MAX_DIGEST_LENGTH` from `payload_builder.py`. -/
def MAX_DIGEST_LENGTH : Nat := 54

/-- `generate_digest` from `payload_builder.py`.  `getText` stands for
`BeautifulSoup(html_content, 'lxml').get_text(separator=' ', strip=True)`
(the third-party visible-text extraction), passed in as a function. -/
def generate_digest (getText : String → String) (metadata : Metadata)
    (html_content : String) : String :=
  let digest := pyStrip (metaGetStr metadata "digest" "")
  let digest :=
    if digest.isEmpty then
      if !html_content.isEmpty then
        pyStrip (pyTake (getText html_content) MAX_DIGEST_LENGTH)
      else "No summary provided."
    else digest
  if digest.length > MAX_DIGEST_LENGTH then
    pyStrip (pyTake digest MAX_DIGEST_LENGTH)
  else digest

/-- The article dictionary built by `build_draft_payload`. -/
structure ArticlePayload where
  title : Val
  author : Val
  digest : String
  content : String
  content_source_url : Val
  thumb_media_id : String
  need_open_comment : Val
  only_fans_can_comment : Val
deriving Repr, DecidableEq

/-- Errors raised by `build_draft_payload` (`KeyError` / `ValueError`). -/
inductive BuildErr where
  | keyError (msg : String)
  | valueError (msg : String)
deriving Repr, DecidableEq

/-- `build_draft_payload` from `payload_builder.py`. -/
def build_draft_payload (getText : String → String) (metadata : Metadata)
    (html_content : String) (thumb_media_id : String) :
    Except BuildErr ArticlePayload :=
  if (Metadata.getVal metadata "title").elim true Val.falsy then
    .error (.keyError "Required metadata 'title' is missing.")
  else if thumb_media_id.isEmpty then
    .error (.valueError "thumb_media_id cannot be empty.")
  else
    .ok
      { title := (Metadata.getVal metadata "title").getD .vNull
        author := (Metadata.getVal metadata "author").getD (.vStr "")
        digest := generate_digest getText metadata html_content
        content := html_content
        content_source_url :=
          (Metadata.getVal metadata "content_source_url").getD (.vStr "")
        thumb_media_id := thumb_media_id
        need_open_comment :=
          (Metadata.getVal metadata "need_open_comment").getD (.vInt 0)
        only_fans_can_comment :=
          (Metadata.getVal metadata "only_fans_can_comment").getD (.vInt 0) }

/-! ## `metadata_reader.py` -/

/-- Outcome of `yaml.safe_load` on the frontmatter block: a mapping, an
explicit `None`, or some other (non-dict) YAML value. -/
inductive YamlOut where
  | dict (m : Metadata)
  | nullv
  | other
deriving Repr

/-- Errors raised by `extract_metadata_and_content`. -/
inductive MetaErr where
  | yamlError
  | notDict
  | missingFields (fields : List String)
deriving Repr, DecidableEq

/-- `YAML_DELIMITER` from `metadata_reader.py`. -/
def YAML_DELIMITER : String := "---"

/-- `REQUIRED_FIELDS` from `metadata_reader.py`. -/
def REQUIRED_FIELDS : List String := ["title", "cover_image_path"]

/-- The required-field scan of the metadata-validation block:
`[field for field in REQUIRED_FIELDS if field not in metadata or not
metadata[field]]`. -/
def missingRequired (metadata : Metadata) : List String :=
  REQUIRED_FIELDS.filter (fun f =>
    match Metadata.getVal metadata f with
    | none => true
    | some v => v.falsy)

/-- The `--- Metadata Validation ---` block of
`extract_metadata_and_content`: a non-empty metadata mapping must carry
every required field with a truthy value; an empty mapping skips the
check. -/
def validateMetadata (metadata : Metadata) (body : String) :
    Except MetaErr (Metadata × String) :=
  if metadata.isEmpty then .ok (metadata, body)
  else
    if (missingRequired metadata).isEmpty then .ok (metadata, body)
    else .error (.missingFields (missingRequired metadata))

/-- `extract_metadata_and_content` from `metadata_reader.py`, over the
already-read file content (`read_file` is the filesystem collaborator).
`yamlParse` stands for `yaml.safe_load`; `.error` models a
`yaml.YAMLError`. -/
def extract_metadata_and_content (yamlParse : String → Except Unit YamlOut)
    (full_content : String) : Except MetaErr (Metadata × String) :=
  if pyStartsWith full_content (YAML_DELIMITER ++ "\n")
      || pyStartsWith full_content (YAML_DELIMITER ++ "\r\n") then
    let searchStart := YAML_DELIMITER.length + 1
    let endPos :=
      match pyFind full_content ("\n" ++ YAML_DELIMITER ++ "\n") searchStart with
      | some p => some p
      | none => pyFind full_content ("\n" ++ YAML_DELIMITER ++ "\r\n") searchStart
    match endPos with
    | some p =>
      let yaml_part := pyStrip (pySlice full_content searchStart p)
      let body_content := pyDrop full_content (p + YAML_DELIMITER.length + 2)
      if yaml_part.isEmpty then
        validateMetadata [] body_content
      else
        match yamlParse yaml_part with
        | .error _ => .error .yamlError
        | .ok (.dict m) => validateMetadata m body_content
        | .ok .nullv => validateMetadata [] body_content
        | .ok .other => .error .notDict
    | none =>
      -- Start delimiter but no closing delimiter: all content is body.
      validateMetadata [] full_content
  else
    validateMetadata [] full_content

/-! ## `hashing_checking.py` -/

/-- The filesystem as seen by `calculate_file_hash`: whether a path is a
regular file, whether reading it succeeds, and its byte content. -/
structure FileSys where
  isFile : String → Bool
  readOk : String → Bool
  content : String → List Nat

/-- `calculate_file_hash` from `hashing_checking.py`.  `digestOf` stands
for the `hashlib` hex digest of the bytes read.  Every failure path of
the source (`not path.is_file()`, `FileNotFoundError`, any other
exception while reading) returns `None`; the function never raises, and
the `Option` return type makes that explicit. -/
def calculate_file_hash (fs : FileSys) (digestOf : List Nat → String)
    (path : String) : Option String :=
  if !fs.isFile path then none
  else if !fs.readOk path then none
  else some (digestOf (fs.content path))

/-! ## `html_processor.py`

The BeautifulSoup document is modelled as a tree of element and text
nodes.  The three soup transformations applied by `process_html_content`
(`_remove_heading_ids`, `_wrap_heading_content`,
`_find_and_replace_local_images`) become tree functions. -/

/-- An HTML node: an element with a tag, attributes and children, or a
text node (a BeautifulSoup `NavigableString`). -/
inductive Node where
  | elem (tag : String) (attrs : List (String × String)) (children : List Node)
  | text (s : String)
deriving Repr

/-- `attrs.get(k)` on an element's attribute dictionary. -/
def getAttr (attrs : List (String × String)) (k : String) : Option String :=
  (attrs.find? (fun p => p.1 == k)).map (·.2)

/-- `attrs[k] = v` on an element's attribute dictionary. -/
def setAttr (attrs : List (String × String)) (k v : String) :
    List (String × String) :=
  if attrs.any (fun p => p.1 == k) then
    attrs.map (fun p => if p.1 == k then (k, v) else p)
  else attrs ++ [(k, v)]

/-- The heading tags `_wrap_heading_content` and `_remove_heading_ids`
search for (`soup.find_all(['h1', ..., 'h6'])`). -/
def headingTags : List String := ["h1", "h2", "h3", "h4", "h5", "h6"]

mutual

/-- Visible text of a node: concatenation of its text descendants. -/
def Node.textContent : Node → String
  | .text s => s
  | .elem _ _ cs => textContentList cs

/-- Visible text of a node list, in document order. -/
def textContentList : List Node → String
  | [] => ""
  | n :: rest => Node.textContent n ++ textContentList rest

end

mutual

/-- `_remove_heading_ids`: delete the `id` attribute from every heading
element in the tree. -/
def removeHeadingIds : Node → Node
  | .text s => .text s
  | .elem tag attrs cs =>
      let attrs :=
        if headingTags.contains tag then attrs.filter (fun p => p.1 != "id")
        else attrs
      .elem tag attrs (removeHeadingIdsList cs)

/-- `_remove_heading_ids` over a node list. -/
def removeHeadingIdsList : List Node → List Node
  | [] => []
  | n :: rest => removeHeadingIds n :: removeHeadingIdsList rest

end

/-- BeautifulSoup `header.find('span', class_='content',
recursive=False)`: does the child list hold a direct `span` child whose
`class` attribute contains the class `content`? -/
def hasDirectContentSpan (children : List Node) : Bool :=
  children.any fun n =>
    match n with
    | .elem "span" attrs _ =>
        match getAttr attrs "class" with
        | some cls => (cls.splitOn " ").contains "content"
        | none => false
    | _ => false

/-- A whitespace-only `NavigableString` (`isinstance(child,
NavigableString) and not child.strip()`), skipped when the heading
content is re-appended. -/
def isWhitespaceOnlyText : Node → Bool
  | .text s => (pyStrip s).isEmpty
  | _ => false

/-- The new child list `_wrap_heading_content` gives a heading: empty
`prefix` span, a `content` span holding the previous children (the
source serialises them to HTML and re-parses that string, which on a
well-formed fragment reproduces the same node list; top-level
whitespace-only text nodes are skipped), and an empty `suffix` span. -/
def wrapHeadChildren (children : List Node) : List Node :=
  [ .elem "span" [("class", "prefix")] [],
    .elem "span" [("class", "content")]
      (children.filter (fun c => !isWhitespaceOnlyText c)),
    .elem "span" [("class", "suffix")] [] ]

mutual

/-- `_wrap_heading_content`: every heading element found in the tree has
its content wrapped in `prefix`/`content`/`suffix` spans, preserving the
heading's attributes; a heading that already has a direct `content` span
child is skipped.  (Headings do not nest inside headings in HTML, so the
per-heading rewrite and the recursive descent never overlap.) -/
def wrapHeadings : Node → Node
  | .text s => .text s
  | .elem tag attrs cs =>
      if headingTags.contains tag then
        if hasDirectContentSpan cs then .elem tag attrs cs
        else .elem tag attrs (wrapHeadChildren cs)
      else .elem tag attrs (wrapHeadingsList cs)

/-- `_wrap_heading_content` over a node list. -/
def wrapHeadingsList : List Node → List Node
  | [] => []
  | n :: rest => wrapHeadings n :: wrapHeadingsList rest

end

/-- Case-insensitive `str.startswith` (the compiled pattern carries
`re.IGNORECASE`). -/
def startsWithCI (s pre : String) : Bool :=
  (s.data.take pre.length).map Char.toLower == pre.data

/-- `LOCAL_IMAGE_SRC_PATTERN.match(src)`: the regex
`^(?!https?://|data:).+` (IGNORECASE) matches exactly when `src` does not
start with `http://`, `https://` or `data:` and its first character
exists and is not a newline (`.` does not match `\n`). -/
def localImageSrcMatch (src : String) : Bool :=
  match src.data with
  | [] => false
  | c :: _ =>
      !(startsWithCI src "http://" || startsWithCI src "https://"
        || startsWithCI src "data:")
      && c != '\n'

/-- The path-resolution collaborators of
`_find_and_replace_local_images`: resolving a `src` relative to the
markdown directory (`(markdown_dir / src).resolve(strict=True)` plus the
`is_file` check), and the stem/suffix glob search in the central
`uploads/content_images` directory.  Each returns the resolved absolute
path when the file is found. -/
structure ImgEnv where
  resolveRelativeToMd : String → Option String
  resolveCentral : String → Option String

mutual

/-- `_find_and_replace_local_images` on one node.  `upl` is the
`image_uploader` callback, modelled with explicit state `σ` (in the
application, `σ` carries the job's warning list, the per-run upload cache
and the remote-call count, all mutated by the closure in
`services.py`). -/
def findReplaceImages {σ : Type} (env : ImgEnv)
    (upl : String → σ → Option String × σ) : Node → σ → Node × σ
  | .text s, st => (.text s, st)
  | .elem tag attrs cs, st =>
      if tag == "img" then
        -- img elements have no children; only the attributes change.
        let attrs := setAttr attrs "alt" ((getAttr attrs "alt").getD "")
        match getAttr attrs "src" with
        | none => (.elem tag attrs cs, st)
        | some src =>
          if !localImageSrcMatch src then (.elem tag attrs cs, st)
          else
            let resolved :=
              match env.resolveRelativeToMd src with
              | some p => some p
              | none => env.resolveCentral src
            match resolved with
            | none =>
                -- Image not locatable: keep the original src; the
                -- uploader callback is not invoked.
                (.elem tag attrs cs, st)
            | some p =>
              match upl p st with
              | (some url, st') => (.elem tag (setAttr attrs "src" url) cs, st')
              | (none, st') => (.elem tag attrs cs, st')
      else
        let (cs', st') := findReplaceImagesList env upl cs st
        (.elem tag attrs cs', st')

/-- `_find_and_replace_local_images` over a node list, threading the
callback state in document order. -/
def findReplaceImagesList {σ : Type} (env : ImgEnv)
    (upl : String → σ → Option String × σ) : List Node → σ → List Node × σ
  | [], st => ([], st)
  | n :: rest, st =>
      let (n', st') := findReplaceImages env upl n st
      let (rest', st'') := findReplaceImagesList env upl rest st'
      (n' :: rest', st'')

end

/-- The soup-transformation core of `process_html_content`: the rendered
markdown fragment (a node list) passes through `_remove_heading_ids`,
`_wrap_heading_content` and `_find_and_replace_local_images`, in that
order.  (The surrounding markdown conversion and the final
`<style>`/wrapper-div string assembly do not alter the fragment's
nodes.) -/
def process_html_content_tree {σ : Type} (env : ImgEnv)
    (upl : String → σ → Option String × σ) (fragment : List Node) (st : σ) :
    List Node × σ :=
  findReplaceImagesList env upl (wrapHeadingsList (removeHeadingIdsList fragment)) st

/-! ## `services.py`: the content-image uploader callback

`_wechat_image_uploader_callback` (a closure in `start_processing_job`)
resolves a content image, enforces the size ceiling, consults the media
cache keyed by content digest, uploads on a miss, and records warnings on
the job.  The closure's mutable context (`image_processing_warnings`,
`callback_upload_cache`, the Django cache writes) is the explicit
`CbState`; external calls come from `CbEnv`. -/

/-- A content-image cache entry: `(wechat_url, error)`, caching failures
as well as successes. -/
abbrev CacheEntry := Option String × Option String

/-- External collaborators of `_wechat_image_uploader_callback`. -/
structure CbEnv where
  /-- The captured `access_token`. -/
  accessToken : String
  /-- The captured `base_url`. -/
  baseUrl : String
  /-- `local_md_path_abs.parent / image_local_path` for a relative path. -/
  mdDirJoin : String → String
  /-- `Path.is_absolute()`. -/
  isAbsolute : String → Bool
  /-- `Path.is_file()`. -/
  isFile : String → Bool
  /-- `resolved_path.resolve(strict=True)`: `none` models the
  `FileNotFoundError`. -/
  resolveStrict : String → Option String
  /-- `ensure_image_size(path, CONTENT_IMAGE_SIZE_LIMIT_KB)`: the
  processed path, or `.error` for any of the exceptions the source
  catches around it. -/
  ensureSize : String → Except Unit String
  /-- `calculate_file_hash(path, 'sha256')`. -/
  fileHash : String → Option String
  /-- The Django cache contents at the start of the run
  (`cache.get(key)`). -/
  djangoCacheGet : String → Option CacheEntry
  /-- `wechat_api.upload_content_image` outcome of the n-th upload call:
  an exception, or the returned URL (possibly empty). -/
  upload : Nat → Except Unit String

/-- Mutable context of the callback closure. -/
structure CbState where
  /-- `callback_upload_cache` (per-run dict). -/
  localCache : List (String × CacheEntry) := []
  /-- Keys written to the Django cache during this run (`cache.set`);
  they shadow `CbEnv.djangoCacheGet`. -/
  djangoCacheSets : List (String × CacheEntry) := []
  /-- `image_processing_warnings` (the job's warning list). -/
  warnings : List String := []
  /-- Number of `upload_content_image` calls made so far. -/
  uploadCalls : Nat := 0
deriving Repr, DecidableEq

/-- Association-list lookup (Python `dict.get`). -/
def lookupAssoc {α : Type} (l : List (String × α)) (k : String) : Option α :=
  (l.find? (fun p => p.1 == k)).map (·.2)

/-- `cache.get(key)` as seen mid-run: writes made during the run shadow
the initial cache contents. -/
def djangoCacheLookup (env : CbEnv) (st : CbState) (key : String) :
    Option CacheEntry :=
  match lookupAssoc st.djangoCacheSets key with
  | some r => some r
  | none => env.djangoCacheGet key

/-- The combined cache consultation of the callback:
`cache.get(content_cache_key) or callback_upload_cache.get(content_cache_key)`
(the Django cache first, the per-run dict as fallback; a stored entry is
a non-empty tuple, hence truthy). -/
def cachedLookup (env : CbEnv) (st : CbState) (key : String) :
    Option CacheEntry :=
  match djangoCacheLookup env st key with
  | some r => some r
  | none => lookupAssoc st.localCache key

/-- Record a result in both caches (`cache.set` plus
`callback_upload_cache[key] = result`), done only when a hash was
computed. -/
def cacheStore (st : CbState) (key : String) (r : CacheEntry) : CbState :=
  { st with
    djangoCacheSets := (key, r) :: st.djangoCacheSets
    localCache := (key, r) :: st.localCache }

/-- Python `Path(src).name` (the final path component). -/
def pathName (p : String) : String :=
  match (p.splitOn "/").reverse with
  | [] => p
  | last :: _ => last

/-- `_wechat_image_uploader_callback` from `start_processing_job`
(`services.py`): returns `(wechat_url, error)` and the updated closure
state. -/
def wechat_image_uploader_callback (env : CbEnv) (image_local_path : String)
    (st : CbState) : (Option String × Option String) × CbState :=
  if env.accessToken.isEmpty || env.baseUrl.isEmpty then
    ((none, some "Callback invoked without valid access_token or base_url."), st)
  else
    let resolved :=
      if !env.isAbsolute image_local_path then env.mdDirJoin image_local_path
      else image_local_path
    let resolvedE : Except Unit String :=
      if !env.isFile resolved then
        match env.resolveStrict resolved with
        | none => .error ()
        | some r => .ok r
      else .ok resolved
    match resolvedE with
    | .error _ =>
        ((none, some ("Callback cannot find image referenced in Markdown: '"
            ++ image_local_path ++ "'")),
         { st with warnings :=
            st.warnings ++ ["Image not found: " ++ pathName image_local_path] })
    | .ok resolved =>
      match env.ensureSize resolved with
      | .error _ =>
          ((none, some ("Failed to process content image '"
              ++ pathName image_local_path ++ "'")),
           { st with warnings :=
              st.warnings ++ ["Image processing failed: "
                ++ pathName image_local_path] })
      | .ok processed =>
        if !env.isFile processed then
          ((none, some ("Processed content image path is invalid or file not found: "
              ++ processed)),
           { st with warnings :=
              st.warnings ++ ["Image processing error: "
                ++ pathName image_local_path] })
        else
          let content_image_hash := env.fileHash processed
          let cacheKey :=
            content_image_hash.map (fun h => "wechat_content_url_sha256_" ++ h)
          let cached : Option CacheEntry :=
            match cacheKey with
            | none => none
            | some key => cachedLookup env st key
          match cached with
          | some (some cachedUrl, _) =>
              -- Cache hit with a previous success: reuse the URL.
              ((some cachedUrl, none), st)
          | some (none, cachedErr) =>
              -- Cache hit recording a previous failure: skip, warn,
              -- and do not re-attempt the upload.
              ((none, cachedErr),
               { st with warnings :=
                  st.warnings ++ ["Image skipped (previous failure): "
                    ++ pathName processed] })
          | none =>
            let st := { st with uploadCalls := st.uploadCalls + 1 }
            match env.upload (st.uploadCalls - 1) with
            | .ok url =>
              if !url.isEmpty then
                let st :=
                  match cacheKey with
                  | some key => cacheStore st key (some url, none)
                  | none => st
                ((some url, none), st)
              else
                let err := "WeChat API returned no URL for uploaded image: "
                    ++ pathName processed
                let st :=
                  match cacheKey with
                  | some key => cacheStore st key (none, some err)
                  | none => st
                ((none, some err),
                 { st with warnings :=
                    st.warnings ++ ["Image upload failed (no URL): "
                      ++ pathName processed] })
            | .error _ =>
                let err := "Upload error for " ++ pathName processed
                let st :=
                  match cacheKey with
                  | some key => cacheStore st key (none, some err)
                  | none => st
                ((none, some err),
                 { st with warnings :=
                    st.warnings ++ ["Image upload error: "
                      ++ pathName processed] })

/-- `adapted_uploader` from `start_processing_job`: calls the main
callback and passes only the URL on to the HTML processor (warnings and
cache updates stay in the closure state). -/
def adaptedUploader (env : CbEnv) : String → CbState → Option String × CbState :=
  fun p st =>
    let (r, st') := wechat_image_uploader_callback env p st
    (r.1, st')

/-! ## `models.py`: the `PublishingJob` record -/

/-- `PublishingJob.Status` from `models.py`. -/
inductive Status where
  | pending
  | processing
  | previewReady
  | publishing
  | published
  | failed
deriving Repr, DecidableEq

/-- The persisted `PublishingJob` row (the fields the pipeline reads and
writes; `task_id`, `created_at` and `updated_at` are managed by the
store and carry no pipeline logic).  Note that `models.py` defines no
`published_at` field: `services.py` assigns `job.published_at` on the
in-memory instance only, and its save listing that name in
`update_fields` raises, so no such column ever exists on the stored
row. -/
structure Job where
  status : Status := .pending
  originalMarkdownPath : Option String := none
  originalCoverImagePath : Option String := none
  metadata : Option Metadata := none
  thumbMediaId : Option String := none
  previewHtmlPath : Option String := none
  wechatMediaId : Option String := none
  errorMessage : Option String := none
deriving Repr, DecidableEq

/-! ## `services.py`: `confirm_and_publish_job` -/

/-- Count of remote WeChat calls (and thumbnail cache writes) performed
by one `confirm_and_publish_job` invocation. -/
structure Trace where
  tokenCalls : Nat := 0
  draftCalls : Nat := 0
  thumbUploadCalls : Nat := 0
  thumbCacheSets : Nat := 0
deriving Repr, DecidableEq

/-- The exceptions `confirm_and_publish_job` raises.  `stateConflict` is
the pre-flight `ValueError("Job not ready for publishing. Current
Status: ...")`. -/
inductive PubErr where
  | stateConflict (st : Status)
  | valueError (msg : String)
  | fileNotFound (msg : String)
  | runtimeError (msg : String)
deriving Repr, DecidableEq

/-- The error text the exception handlers persist on the job. -/
def errText : PubErr → String
  | .stateConflict _ => "Publishing pre-check or setup failed: Job not ready for publishing."
  | .valueError m => "Publishing pre-check or setup failed: " ++ m
  | .fileNotFound m => m
  | .runtimeError m => m

instance {ε α : Type} [DecidableEq ε] [DecidableEq α] :
    DecidableEq (Except ε α) := fun a b =>
  match a, b with
  | .ok x, .ok y =>
      if h : x = y then isTrue (congrArg Except.ok h)
      else isFalse (fun he => h (Except.ok.inj he))
  | .error x, .error y =>
      if h : x = y then isTrue (congrArg Except.error h)
      else isFalse (fun he => h (Except.error.inj he))
  | .ok _, .error _ => isFalse (fun he => Except.noConfusion he)
  | .error _, .ok _ => isFalse (fun he => Except.noConfusion he)

/-- What one `confirm_and_publish_job` call returns: the persisted job
row, the raised exception or returned media id, and the remote calls
made. -/
structure PubResult where
  job : Job
  outcome : Except PubErr String
  trace : Trace
deriving Repr, DecidableEq

/-- The terminal `except` blocks of `confirm_and_publish_job`: record the
error on the job (`status=FAILED`, `error_message`) unless the job is
already `PUBLISHED` or `FAILED`, then re-raise. -/
def failHandler (job : Job) (e : PubErr) (tr : Trace) : PubResult :=
  if job.status = .published || job.status = .failed then
    { job := job, outcome := .error e, trace := tr }
  else
    { job := { job with status := .failed, errorMessage := some (errText e) }
      outcome := .error e, trace := tr }

/-- The error the `add_draft` exception handler distils from a failed
attempt: the detected `errcode` (from the response JSON, exception
attributes, or the `'40007' in str(e)` fallback) and the error text. -/
structure DraftErr where
  errcode : Option Int
  errmsg : String
deriving Repr, DecidableEq

/-- External collaborators of `confirm_and_publish_job`. -/
structure PublishEnv where
  /-- `settings.WECHAT_APP_ID`. -/
  appId : String
  /-- `settings.WECHAT_SECRET`. -/
  secret : String
  /-- `BeautifulSoup(...).get_text(separator=' ', strip=True)` used by
  `generate_digest` when building the payload. -/
  getText : String → String
  /-- `settings.WECHAT_DRAFT_PLACEHOLDER_CONTENT`. -/
  placeholderSetting : Option String
  /-- `auth.get_access_token` outcome of the n-th token fetch: an
  exception, or the returned token (possibly empty). -/
  getToken : Nat → Except Unit String
  /-- `wechat_api.add_draft` outcome of the n-th submission attempt. -/
  addDraft : Nat → Except DraftErr String
  /-- `Path(settings.MEDIA_ROOT / job.original_cover_image_path).is_file()`
  during the retry. -/
  originalCoverIsFile : Bool
  /-- `ensure_image_size` on the original cover during the retry: the
  processed path (the freshly produced file, which exists), or an
  exception. -/
  ensureImageSizeRetry : Except Unit String
  /-- `wechat_api.upload_thumb_media` outcome of the n-th thumbnail
  re-upload. -/
  uploadThumb : Nat → Except Unit String
  /-- `calculate_file_hash` on the re-processed cover during the retry. -/
  hashRetry : Option String

/-- `MAX_RETRIES` (`max_retries = 1` in `confirm_and_publish_job`). -/
def MAX_RETRIES : Nat := 1

/-- The thumbnail re-process/re-upload block of the 40007 retry path
(`services.py` lines 617-689 before the payload rebuild): check the
stored cover path, re-run `ensure_image_size`, fetch a fresh token,
re-upload the thumbnail, persist the new `thumb_media_id` on the job and
refresh the cache entry for the re-processed file's digest. -/
def retryPrep (env : PublishEnv) (job : Job) (tr : Trace) :
    Except (Job × PubErr × Trace) (Job × String × Trace) :=
  if !optStrTruthy job.originalCoverImagePath then
    .error (job, .valueError
      "Cannot retry thumb upload: original cover image path not found in job record.", tr)
  else if !env.originalCoverIsFile then
    .error (job, .fileNotFound
      "Cannot retry thumb upload: original cover file not found", tr)
  else
    match env.ensureImageSizeRetry with
    | .error _ =>
        .error (job, .runtimeError
          "Failed to re-process cover image during retry", tr)
    | .ok _processedPath =>
      let idx := tr.tokenCalls
      let tr := { tr with tokenCalls := tr.tokenCalls + 1 }
      match env.getToken idx with
      | .error _ =>
          .error (job, .runtimeError "Failed to get fresh WeChat token for retry.", tr)
      | .ok tok =>
        if tok.isEmpty then
          .error (job, .runtimeError "Failed to get fresh WeChat token for retry.", tr)
        else
          let uidx := tr.thumbUploadCalls
          let tr := { tr with thumbUploadCalls := tr.thumbUploadCalls + 1 }
          match env.uploadThumb uidx with
          | .error _ =>
              .error (job, .runtimeError "Failed during thumbnail re-upload attempt", tr)
          | .ok newThumbId =>
            if newThumbId.isEmpty then
              .error (job, .runtimeError
                "Failed to re-upload permanent thumbnail during retry (API returned no ID).", tr)
            else
              let job := { job with thumbMediaId := some newThumbId }
              let tr :=
                match env.hashRetry with
                | some _ => { tr with thumbCacheSets := tr.thumbCacheSets + 1 }
                | none => tr
              .ok (job, newThumbId, tr)

/-- The success epilogue of `confirm_and_publish_job` (lines 704-717).
The source assigns `status = PUBLISHED`, `wechat_media_id`,
`error_message = None` and `published_at` on the in-memory instance and
calls `job.save(update_fields=JOB_PUBLISH_SUCCESS_FIELDS)` — but
`PublishingJob` (`models.py`) defines no `published_at` field, so
Django's `save` raises `ValueError` before writing anything.  The
`except (ValueError, FileNotFoundError)` handler then skips its own
`FAILED` update, because the in-memory instance already shows
`PUBLISHED`, and re-raises.  The stored row is therefore returned
exactly as it was (status `PUBLISHING` from the earlier save, media id
untouched), with the raised error as the outcome; the `return {...}`
success dictionary at line 712 is unreachable. -/
def successFinish (job : Job) (_mid : String) (tr : Trace) : PubResult :=
  { job := job
    outcome := .error (.valueError
      "The following fields do not exist in this model, are m2m fields, or are non-concrete fields: published_at")
    trace := tr }

/-- The `add_draft` retry loop of `confirm_and_publish_job`.
`retriesLeft = max_retries + 1 - attempt`; the loop enters with
`retriesLeft = MAX_RETRIES`.  An attempt that fails with the detected
errcode 40007 while a retry remains runs `retryPrep`, rebuilds the
payload with the new thumbnail id, and tries again; any other failure,
or a failure once retries are exhausted, raises and the handler marks
the job `FAILED`.  A success that returns an empty media id trips the
post-loop `if not final_media_id` guard and also raises; a success with
a non-empty id reaches the epilogue, whose save raises (see
`successFinish`). -/
def publishLoop (env : PublishEnv) (placeholder : String) :
    Job → String → Trace → Nat → PubResult
  | job, _thumbId, tr, retriesLeft =>
    let idx := tr.draftCalls
    let tr := { tr with draftCalls := tr.draftCalls + 1 }
    match env.addDraft idx with
    | .ok mid =>
        if mid.isEmpty then
          failHandler job
            (.runtimeError "Publishing finished but final WeChat media ID was not obtained.") tr
        else successFinish job mid tr
    | .error e =>
        match retriesLeft with
        | 0 =>
            failHandler job
              (.runtimeError ("Failed to publish draft to WeChat. Last error: " ++ e.errmsg)) tr
        | r + 1 =>
          if e.errcode = some 40007 then
            match retryPrep env job tr with
            | .error (job', err, tr') => failHandler job' err tr'
            | .ok (job', newThumbId, tr') =>
              match build_draft_payload env.getText (job'.metadata.getD [])
                  placeholder newThumbId with
              | .error _ =>
                  failHandler job' (.valueError "Payload re-building failed during retry") tr'
              | .ok _ => publishLoop env placeholder job' newThumbId tr' r
          else
            failHandler job
              (.runtimeError ("Failed to publish draft to WeChat. Last error: " ++ e.errmsg)) tr

/-- The default used when `settings.WECHAT_DRAFT_PLACEHOLDER_CONTENT`
is falsy. -/
def defaultPlaceholder : String := "<p>Content pending update.</p>"

/-- `settings.WECHAT_DRAFT_PLACEHOLDER_CONTENT or "<p>Content pending
update.</p>"`. -/
def resolvePlaceholder (o : Option String) : String :=
  match o with
  | some s => if s.isEmpty then defaultPlaceholder else s
  | none => defaultPlaceholder

/-- `confirm_and_publish_job` from `services.py`, for a loaded job row
(the `DoesNotExist` branch concerns the store, not the pipeline): the
pre-flight status/metadata/thumbnail checks, the transition to
`PUBLISHING`, credentials and token acquisition, payload construction,
the `add_draft` retry loop, and the terminal exception handlers. -/
def confirm_and_publish_job (env : PublishEnv) (job0 : Job) : PubResult :=
  if job0.status ≠ .previewReady then
    failHandler job0 (.stateConflict job0.status) {}
  else
    let metadata_from_db := job0.metadata.getD []
    let title_from_db := Metadata.getVal metadata_from_db "title"
    if job0.metadata.isNone then
      failHandler job0 (.valueError "Cannot publish job: Metadata is invalid or missing.") {}
    else if title_from_db.elim true Val.falsy then
      failHandler job0
        (.valueError "Cannot publish job: Article 'title' is missing or empty in metadata.") {}
    else if !optStrTruthy job0.thumbMediaId then
      failHandler job0
        (.valueError "Cannot publish job: WeChat thumbnail ID (thumb_media_id) is missing.") {}
    else
      let job1 := { job0 with status := .publishing }
      if env.appId.isEmpty || env.secret.isEmpty then
        failHandler job1 (.valueError "WeChat credentials not configured.") {}
      else
        let tr : Trace := { tokenCalls := 1 }
        match env.getToken 0 with
        | .error _ =>
            failHandler job1
              (.runtimeError "Failed to get WeChat access token for publishing.") tr
        | .ok tok =>
          if tok.isEmpty then
            failHandler job1
              (.runtimeError "Failed to get WeChat access token for publishing.") tr
          else
            let placeholder := resolvePlaceholder env.placeholderSetting
            let current_thumb_media_id := job0.thumbMediaId.getD ""
            match build_draft_payload env.getText metadata_from_db
                placeholder current_thumb_media_id with
            | .error _ => failHandler job1 (.valueError "Payload building failed") tr
            | .ok _ =>
                publishLoop env placeholder job1 current_thumb_media_id tr MAX_RETRIES

/-! ## `services.py`: `start_processing_job` -/

/-- Thumbnail cache/upload activity of the cover-thumbnail step of
`start_processing_job`. -/
structure ThumbTrace where
  cacheGets : Nat := 0
  cacheSets : Nat := 0
  uploads : Nat := 0
deriving Repr, DecidableEq

/-- External collaborators of `start_processing_job`. -/
structure ProcEnv where
  /-- `_save_uploaded_file_locally(markdown_file, 'uploads/markdown')`:
  the stored relative path, or the wrapped `RuntimeError`. -/
  saveMarkdown : Except Unit String
  /-- `_save_uploaded_file_locally(cover_image, 'uploads/cover_images')`. -/
  saveCover : Except Unit String
  /-- `ensure_image_size(local_cover_path, COVER_IMAGE_SIZE_LIMIT_KB)`. -/
  ensureCoverSize : Except Unit String
  /-- Saving the side-uploaded content images (a loop of
  `_save_uploaded_file_locally` calls). -/
  saveContentImages : Except Unit Unit
  /-- `settings.WECHAT_APP_ID`. -/
  appId : String
  /-- `settings.WECHAT_SECRET`. -/
  secret : String
  /-- `auth.get_access_token` outcome. -/
  getToken : Except Unit String
  /-- `processed_cover_path_abs.is_file()` after `ensure_image_size`. -/
  processedCoverIsFile : Bool
  /-- `calculate_file_hash(processed_cover_path_abs, 'sha256')`. -/
  coverHash : Option String
  /-- `cache.get(cache_key)` for the thumbnail cache key. -/
  thumbCacheGet : String → Option String
  /-- `wechat_api.upload_thumb_media` outcome: an exception, or the
  returned media id (possibly empty). -/
  uploadThumb : Except Unit String
  /-- `read_file` inside `metadata_reader.extract_metadata_and_content`:
  the markdown file's content, or a read failure. -/
  readMd : Except Unit String
  /-- `yaml.safe_load` on the frontmatter block. -/
  yamlParse : String → Except Unit YamlOut
  /-- `Path(markdown_file.name).stem.replace('_',' ').replace('-',' ')
  .title()`: the fallback title synthesised from the upload's filename. -/
  defaultTitle : String
  /-- `html_processor.process_html_content` outcome: the processed HTML
  fragment together with the `image_processing_warnings` the uploader
  callback accumulated (its internals are modelled by
  `process_html_content_tree` and `wechat_image_uploader_callback`
  above), or an exception. -/
  processHtml : Except Unit (String × List String)
  /-- `_generate_preview_file`: the stored relative preview path, or the
  wrapped `RuntimeError`. -/
  genPreview : Except Unit String

/-- The cover-thumbnail acquisition step of `start_processing_job`
(`services.py` lines 189-227): hash the processed cover; with a digest,
consult the cache (a truthy hit reuses the cached media id; a miss
uploads and populates the cache); without a digest, skip the cache
entirely and upload directly.  The final `if not permanent_thumb_media_id`
guard re-raises an upload that returned an empty id (inside the `try`,
so it surfaces as the wrapped upload `RuntimeError`). -/
def acquireThumbMediaId (env : ProcEnv) : Except PubErr String × ThumbTrace :=
  match env.coverHash with
  | some h =>
    let _cacheKey := "wechat_thumb_sha256_" ++ h
    match env.thumbCacheGet ("wechat_thumb_sha256_" ++ h) with
    | some cached =>
      if !cached.isEmpty then (.ok cached, { cacheGets := 1 })
      else
        -- A falsy cached value is treated as a miss (`if cached_media_id:`).
        match env.uploadThumb with
        | .error _ =>
            (.error (.runtimeError "Failed to upload thumbnail to WeChat"),
             { cacheGets := 1, uploads := 1 })
        | .ok mid =>
          if mid.isEmpty then
            (.error (.runtimeError
              "Failed to upload thumbnail to WeChat: WeChat API returned no media ID for thumbnail."),
             { cacheGets := 1, uploads := 1 })
          else (.ok mid, { cacheGets := 1, uploads := 1, cacheSets := 1 })
    | none =>
        match env.uploadThumb with
        | .error _ =>
            (.error (.runtimeError "Failed to upload thumbnail to WeChat"),
             { cacheGets := 1, uploads := 1 })
        | .ok mid =>
          if mid.isEmpty then
            (.error (.runtimeError
              "Failed to upload thumbnail to WeChat: WeChat API returned no media ID for thumbnail."),
             { cacheGets := 1, uploads := 1 })
          else (.ok mid, { cacheGets := 1, uploads := 1, cacheSets := 1 })
  | none =>
      -- Hash failure degrades to a direct upload: no cache get, no
      -- cache set.
      match env.uploadThumb with
      | .error _ =>
          (.error (.runtimeError "Failed to upload thumbnail to WeChat (after hash failure)"),
           { uploads := 1 })
      | .ok mid =>
        if mid.isEmpty then
          (.error (.runtimeError
            "Failed to upload thumbnail to WeChat (after hash failure): WeChat API returned no media ID for thumbnail upload (after hash failure)."),
           { uploads := 1 })
        else (.ok mid, { uploads := 1 })

/-- What one `start_processing_job` call leaves behind: the persisted
job row, the returned `(preview_url, warnings)` or raised exception, and
the thumbnail-step activity. -/
structure ProcResult where
  job : Job
  outcome : Except PubErr (String × List String)
  trace : ThumbTrace
deriving Repr, DecidableEq

/-- The `except` blocks of `start_processing_job`: mark the job
`FAILED`, record the error message, re-raise. -/
def procFail (job : Job) (e : PubErr) (tr : ThumbTrace) : ProcResult :=
  { job := { job with status := .failed, errorMessage := some (errText e) }
    outcome := .error e, trace := tr }

/-- `start_processing_job` from `services.py`: create the job
(`PENDING`, then `PROCESSING`), save the uploads, optimise the cover,
obtain the permanent thumbnail (cache or upload), extract and validate
metadata, default a missing title from the filename, process the
markdown body to HTML through the uploader callback, record any image
warnings on the job, write the preview artifact and transition to
`PREVIEW_READY`.  Every failure lands in an `except` block that marks
the job `FAILED` with the error message. -/
def start_processing_job (env : ProcEnv) : ProcResult :=
  let job : Job := { status := .processing }
  match env.saveMarkdown with
  | .error _ => procFail job (.runtimeError "Failed to save markdown locally due to file system error.") {}
  | .ok mdPath =>
  let job := { job with originalMarkdownPath := some mdPath }
  match env.saveCover with
  | .error _ => procFail job (.runtimeError "Failed to save cover locally due to file system error.") {}
  | .ok coverPath =>
  let job := { job with originalCoverImagePath := some coverPath }
  match env.ensureCoverSize with
  | .error _ => procFail job (.runtimeError "Failed to process cover image") {}
  | .ok _processedCover =>
  match env.saveContentImages with
  | .error _ => procFail job (.runtimeError "Failed to save content image locally due to file system error.") {}
  | .ok _ =>
  if env.appId.isEmpty || env.secret.isEmpty then
    procFail job (.valueError "WeChat credentials missing.") {}
  else
  match env.getToken with
  | .error _ => procFail job (.runtimeError "Failed to get WeChat access token.") {}
  | .ok tok =>
  if tok.isEmpty then
    procFail job (.runtimeError "Failed to get WeChat access token.") {}
  else
  if !env.processedCoverIsFile then
    procFail job (.fileNotFound "Processed cover image not found at expected path") {}
  else
  match acquireThumbMediaId env with
  | (.error e, ttr) => procFail job e ttr
  | (.ok thumbId, ttr) =>
  let job := { job with thumbMediaId := some thumbId }
  match env.readMd with
  | .error _ => procFail job (.runtimeError "Failed to read file") ttr
  | .ok mdContent =>
  match extract_metadata_and_content env.yamlParse mdContent with
  | .error _ =>
      procFail job (.valueError "Invalid YAML metadata found in Markdown file") ttr
  | .ok (metadata0, _body) =>
  let job := { job with metadata := some metadata0 }
  let titled :=
    if (Metadata.getVal metadata0 "title").elim true Val.falsy then
      Metadata.setVal metadata0 "title" (.vStr env.defaultTitle)
    else metadata0
  let job := { job with metadata := some titled }
  match env.processHtml with
  | .error _ => procFail job (.runtimeError "HTML processing failed") ttr
  | .ok (_fragment, warnings) =>
  let warnMsg :=
    (job.errorMessage.getD "") ++ " | Warnings: " ++ String.intercalate "; " warnings
  let job :=
    if !warnings.isEmpty then { job with errorMessage := some warnMsg }
    else job
  match env.genPreview with
  | .error _ => procFail job (.runtimeError "Failed to write preview file due to file system error.") ttr
  | .ok previewPath =>
  let job := { job with previewHtmlPath := some previewPath, status := .previewReady }
  -- `if not image_processing_warnings and job.error_message and
  -- job.error_message.startswith("Warnings:")`: clear a warnings-only
  -- error message when no warnings remain.
  let job :=
    if warnings.isEmpty
        && pyStartsWith (job.errorMessage.getD "") "Warnings:"
        && optStrTruthy job.errorMessage then
      { job with errorMessage := none }
    else job
  { job := job
    outcome := .ok ("/media/" ++ previewPath, warnings)
    trace := ttr }

/-- The job rows reachable through completed pipeline operations:
`start_processing_job` creates a job and leaves its final row;
`confirm_and_publish_job` maps a stored row to its final row. -/
inductive Reachable : Job → Prop
  | start (env : ProcEnv) : Reachable (start_processing_job env).job
  | publish (env : PublishEnv) {j : Job} :
      Reachable j → Reachable (confirm_and_publish_job env j).job

/-! ## Helper lemmas -/

theorem length_dropWhile_le {α : Type} (p : α → Bool) (l : List α) :
    (l.dropWhile p).length ≤ l.length := by
  induction l with
  | nil => simp
  | cons a l ih =>
    rw [List.dropWhile_cons]
    split
    · exact le_trans ih (Nat.le_succ _)
    · simp

theorem pyStrip_length_le (s : String) : (pyStrip s).length ≤ s.length := by
  show (((s.data.dropWhile isPySpace).reverse.dropWhile isPySpace).reverse).length
      ≤ s.data.length
  rw [List.length_reverse]
  refine le_trans (length_dropWhile_le _ _) ?_
  rw [List.length_reverse]
  exact length_dropWhile_le _ _

theorem pyTake_length_le (s : String) (n : Nat) : (pyTake s n).length ≤ n := by
  show (s.data.take n).length ≤ n
  rw [List.length_take]
  exact min_le_left _ _

theorem pyStrip_pyTake_length_le (s : String) (n : Nat) :
    (pyStrip (pyTake s n)).length ≤ n :=
  le_trans (pyStrip_length_le _) (pyTake_length_le _ _)

/-- `generate_digest` with no supplied digest and non-empty content:
the digest is the stripped truncation of the extracted text. -/
theorem generate_digest_auto (getText : String → String) (m : Metadata)
    (html : String)
    (hd : pyStrip (metaGetStr m "digest" "") = "")
    (hh : html.isEmpty = false) :
    generate_digest getText m html
      = pyStrip (pyTake (getText html) MAX_DIGEST_LENGTH) := by
  have hlen := pyStrip_pyTake_length_le (getText html) MAX_DIGEST_LENGTH
  have h1 : ("" : String).isEmpty = true := rfl
  unfold generate_digest
  simp only [hd, h1, hh, if_true, Bool.not_false]
  rw [if_neg (by omega)]

/-- A successfully built payload carries exactly the generated digest. -/
theorem build_draft_payload_digest {getText : String → String} {m : Metadata}
    {html thumb : String} {p : ArticlePayload}
    (hp : build_draft_payload getText m html thumb = .ok p) :
    p.digest = generate_digest getText m html := by
  unfold build_draft_payload at hp
  split at hp
  · exact Except.noConfusion hp
  split at hp
  · exact Except.noConfusion hp
  injection hp with h
  rw [← h]

/-- C8: For every metadata map that does not supply a non-empty digest,
`build_draft_payload` auto-derives the payload's digest from the
stripped visible text of the supplied HTML content truncated to
`MAX_DIGEST_LENGTH = 54` characters, and the digest placed in the
payload never exceeds 54 characters. -/
theorem c8_digest_auto_derived (getText : String → String) (m : Metadata)
    (html thumb : String) (p : ArticlePayload)
    (hd : pyStrip (metaGetStr m "digest" "") = "")
    (hh : html.isEmpty = false)
    (hp : build_draft_payload getText m html thumb = .ok p) :
    p.digest = pyStrip (pyTake (getText html) MAX_DIGEST_LENGTH)
      ∧ p.digest.length ≤ MAX_DIGEST_LENGTH := by
  rw [build_draft_payload_digest hp, generate_digest_auto getText m html hd hh]
  exact ⟨rfl, pyStrip_pyTake_length_le _ _⟩

/-- C8 witness: a concrete payload build with no supplied digest. -/
theorem c8_witness :
    ({ title := Val.vStr "T", author := Val.vStr "", digest := "Hello",
       content := "Hello", content_source_url := Val.vStr "",
       thumb_media_id := "th", need_open_comment := Val.vInt 0,
       only_fans_can_comment := Val.vInt 0 } : ArticlePayload).digest
        = pyStrip (pyTake (id "Hello") MAX_DIGEST_LENGTH)
      ∧ ({ title := Val.vStr "T", author := Val.vStr "", digest := "Hello",
           content := "Hello", content_source_url := Val.vStr "",
           thumb_media_id := "th", need_open_comment := Val.vInt 0,
           only_fans_can_comment := Val.vInt 0 } : ArticlePayload).digest.length
          ≤ MAX_DIGEST_LENGTH :=
  c8_digest_auto_derived id [("title", Val.vStr "T")] "Hello" "th" _
    (by decide) (by decide) (by decide)

/-- `validateMetadata` succeeds only with the metadata and body it was
given, and only when the metadata is empty or passes the required-field
scan. -/
theorem validateMetadata_ok {md : Metadata} {body : String} {m : Metadata}
    {b : String} (h : validateMetadata md body = .ok (m, b)) :
    m = md ∧ b = body ∧ (md.isEmpty = true ∨ missingRequired md = []) := by
  unfold validateMetadata at h
  split at h
  · injection h with h2
    injection h2 with hm hb
    exact ⟨hm.symm, hb.symm, Or.inl ‹_›⟩
  · split at h
    · injection h with h2
      injection h2 with hm hb
      refine ⟨hm.symm, hb.symm, Or.inr ?_⟩
      exact List.isEmpty_iff.mp ‹_›
    · exact Except.noConfusion h

/-- A non-error result of `extract_metadata_and_content` has metadata
that is empty or passes the required-field scan. -/
theorem extract_ok_validated {yamlParse : String → Except Unit YamlOut}
    {full : String} {m : Metadata} {b : String}
    (h : extract_metadata_and_content yamlParse full = .ok (m, b)) :
    m.isEmpty = true ∨ missingRequired m = [] := by
  simp only [extract_metadata_and_content] at h
  split at h
  · split at h
    · split at h
      · obtain ⟨hm, _, hc⟩ := validateMetadata_ok h; subst hm; exact hc
      · split at h
        · exact Except.noConfusion h
        · obtain ⟨hm, _, hc⟩ := validateMetadata_ok h; subst hm; exact hc
        · obtain ⟨hm, _, hc⟩ := validateMetadata_ok h; subst hm; exact hc
        · exact Except.noConfusion h
    · obtain ⟨hm, _, hc⟩ := validateMetadata_ok h; subst hm; exact hc
  · obtain ⟨hm, _, hc⟩ := validateMetadata_ok h; subst hm; exact hc

/-- C10 (amended): whenever the parsed frontmatter mapping is non-empty,
`extract_metadata_and_content` returns successfully only if both
required fields (`title`, `cover_image_path`) are present with truthy
values (otherwise it raises); a file with no frontmatter delimiter
returns an empty metadata map with the full content as body; a file with
an empty frontmatter block (a found closing delimiter and a
whitespace-only YAML part) returns an empty metadata map with the
content after the closing delimiter — not the full file content — as
body, skipping validation in both cases. -/
theorem c10_frontmatter_validation (yamlParse : String → Except Unit YamlOut)
    (full : String) :
    (∀ m b, extract_metadata_and_content yamlParse full = .ok (m, b) →
        m ≠ [] →
        ∀ f ∈ REQUIRED_FIELDS, ∃ v, Metadata.getVal m f = some v ∧ v.falsy = false)
    ∧ ((pyStartsWith full (YAML_DELIMITER ++ "\n")
          || pyStartsWith full (YAML_DELIMITER ++ "\r\n")) = false →
        extract_metadata_and_content yamlParse full = .ok ([], full))
    ∧ (∀ p, (pyStartsWith full (YAML_DELIMITER ++ "\n")
          || pyStartsWith full (YAML_DELIMITER ++ "\r\n")) = true →
        pyFind full ("\n" ++ YAML_DELIMITER ++ "\n") (YAML_DELIMITER.length + 1)
          = some p →
        (pyStrip (pySlice full (YAML_DELIMITER.length + 1) p)).isEmpty = true →
        extract_metadata_and_content yamlParse full
          = .ok ([], pyDrop full (p + YAML_DELIMITER.length + 2))) := by
  refine ⟨?_, ?_, ?_⟩
  · intro m b h hm f hf
    rcases extract_ok_validated h with he | hreq
    · exact absurd (List.isEmpty_iff.mp he) hm
    · have := List.filter_eq_nil_iff.mp hreq f hf
      revert this
      cases hv : Metadata.getVal m f with
      | none => intro this; exact absurd rfl this
      | some v =>
          intro this
          refine ⟨v, rfl, ?_⟩
          cases hfv : v.falsy with
          | false => rfl
          | true => exact absurd hfv this
  · intro hstart
    simp only [extract_metadata_and_content, hstart, Bool.false_eq_true,
      if_false]
    simp [validateMetadata]
  · intro p hstart hfind hempty
    simp only [extract_metadata_and_content, hstart, if_true, hfind, hempty]
    simp [validateMetadata]

/-- C10 counterexample: a file with an empty frontmatter block.  The
extraction succeeds with empty metadata, but the returned body is the
content after the closing delimiter, not the full file content as the
claim states. -/
theorem c10_counterexample :
    extract_metadata_and_content (fun _ => .ok .other) "---\n\n---\nbody"
        = .ok ([], "body")
      ∧ ¬(("body" : String) = "---\n\n---\nbody") := by
  constructor
  · decide
  · decide

/-- C10 witness: the amended theorem applied at concrete inputs — a
validated two-field frontmatter, a file with no frontmatter, and a file
with an empty frontmatter block. -/
theorem c10_witness :
    (∃ v, Metadata.getVal
        [("title", Val.vStr "T"), ("cover_image_path", Val.vStr "c")] "title"
          = some v ∧ v.falsy = false)
    ∧ extract_metadata_and_content (fun _ => .ok .other) "hello"
        = .ok ([], "hello")
    ∧ extract_metadata_and_content
        (fun _ => .ok (.dict [("title", Val.vStr "T"), ("cover_image_path", Val.vStr "c")]))
        "---\n\n---\nxyz" = .ok ([], "xyz") :=
  ⟨(c10_frontmatter_validation
      (fun _ => .ok (.dict [("title", Val.vStr "T"), ("cover_image_path", Val.vStr "c")]))
      "---\nt\n---\nbody").1
      [("title", Val.vStr "T"), ("cover_image_path", Val.vStr "c")] "body"
      (by decide) (by decide) "title" (by decide),
   (c10_frontmatter_validation (fun _ => .ok .other) "hello").2.1 (by decide),
   (c10_frontmatter_validation
      (fun _ => .ok (.dict [("title", Val.vStr "T"), ("cover_image_path", Val.vStr "c")]))
      "---\n\n---\nxyz").2.2 4 (by decide) (by decide) (by decide)⟩

/-- C7: when computing the cover hash yields no digest, the thumbnail
step performs a direct upload — no cache read and no cache write — and
an upload that returns a non-empty media id makes the step succeed, so
the hash failure itself never fails the job; and `calculate_file_hash`
returns the explicit no-digest outcome (rather than raising) whenever
the path is not a readable file. -/
theorem c7_hash_failure_direct_upload (env : ProcEnv) (fs : FileSys)
    (digestOf : List Nat → String) (p : String)
    (hh : env.coverHash = none) (hf : fs.isFile p = false) :
    (acquireThumbMediaId env).2.cacheGets = 0
      ∧ (acquireThumbMediaId env).2.cacheSets = 0
      ∧ (acquireThumbMediaId env).2.uploads = 1
      ∧ (∀ mid, env.uploadThumb = .ok mid → mid.isEmpty = false →
          (acquireThumbMediaId env).1 = .ok mid)
      ∧ calculate_file_hash fs digestOf p = none := by
  have hhash : calculate_file_hash fs digestOf p = none := by
    unfold calculate_file_hash
    rw [hf]
    rfl
  refine ⟨?_, ?_, ?_, ?_, hhash⟩
  · unfold acquireThumbMediaId
    rw [hh]
    cases hu : env.uploadThumb with
    | error e => rfl
    | ok mid => cases hmi : mid.isEmpty <;> simp [hmi]
  · unfold acquireThumbMediaId
    rw [hh]
    cases hu : env.uploadThumb with
    | error e => rfl
    | ok mid => cases hmi : mid.isEmpty <;> simp [hmi]
  · unfold acquireThumbMediaId
    rw [hh]
    cases hu : env.uploadThumb with
    | error e => rfl
    | ok mid => cases hmi : mid.isEmpty <;> simp [hmi]
  · intro mid hm he
    unfold acquireThumbMediaId
    rw [hh, hm]
    simp [he]

/-- A concrete `start_processing_job` environment: every save succeeds,
the cover hash fails, the direct thumbnail upload succeeds, the markdown
file is empty. -/
def sampleProcEnv : ProcEnv :=
  { saveMarkdown := .ok "m", saveCover := .ok "c",
    ensureCoverSize := .ok "c", saveContentImages := .ok (),
    appId := "a", secret := "s", getToken := .ok "t",
    processedCoverIsFile := true, coverHash := none,
    thumbCacheGet := fun _ => none, uploadThumb := .ok "THUMB",
    readMd := .ok "", yamlParse := fun _ => .ok .nullv,
    defaultTitle := "T", processHtml := .ok ("", []),
    genPreview := .ok "p" }

/-- A filesystem with no readable files, for `calculate_file_hash`. -/
def emptyFS : FileSys :=
  { isFile := fun _ => false, readOk := fun _ => false,
    content := fun _ => [] }

/-- C7 witness: a concrete environment whose cover hash fails and whose
direct upload succeeds, over a filesystem with no files. -/
theorem c7_witness :
    (acquireThumbMediaId sampleProcEnv).2.cacheGets = 0
    ∧ (acquireThumbMediaId sampleProcEnv).2.cacheSets = 0
    ∧ (acquireThumbMediaId sampleProcEnv).2.uploads = 1
    ∧ (acquireThumbMediaId sampleProcEnv).1 = .ok "THUMB"
    ∧ calculate_file_hash emptyFS (fun _ => "") "cover.jpg" = none := by
  obtain ⟨h1, h2, h3, h4, h5⟩ :=
    c7_hash_failure_direct_upload sampleProcEnv emptyFS (fun _ => "")
      "cover.jpg" rfl rfl
  exact ⟨h1, h2, h3, h4 "THUMB" rfl rfl, h5⟩

theorem failHandler_outcome (j : Job) (e : PubErr) (tr : Trace) :
    (failHandler j e tr).outcome = .error e := by
  unfold failHandler
  split <;> rfl

theorem failHandler_trace (j : Job) (e : PubErr) (tr : Trace) :
    (failHandler j e tr).trace = tr := by
  unfold failHandler
  split <;> rfl

theorem failHandler_media (j : Job) (e : PubErr) (tr : Trace) :
    (failHandler j e tr).job.wechatMediaId = j.wechatMediaId := by
  unfold failHandler
  split <;> rfl

/-- On a job in `PUBLISHING`, the exception handler always marks the job
failed and does not touch the media id. -/
theorem failHandler_publishing (j : Job) (e : PubErr) (tr : Trace)
    (h : j.status = .publishing) :
    (failHandler j e tr).job.status = .failed := by
  unfold failHandler
  rw [if_neg (by simp [h])]

/-- The handler leaves the job's status `published` exactly when it came
in `published` (a published job is never downgraded; no other status
maps to `published`). -/
theorem failHandler_published_iff (j : Job) (e : PubErr) (tr : Trace) :
    (failHandler j e tr).job.status = .published ↔ j.status = .published := by
  unfold failHandler
  split
  · exact Iff.rfl
  · rename_i hcond
    rw [Bool.or_eq_true, not_or] at hcond
    obtain ⟨h1, h2⟩ := hcond
    show Status.failed = .published ↔ _
    simp only [decide_eq_true_eq] at h1
    simp [h1]

/-- A successful `retryPrep` changes only `thumbMediaId`, to the
(non-empty) freshly uploaded id. -/
theorem retryPrep_ok {env : PublishEnv} {job : Job} {tr : Trace}
    {job' : Job} {newId : String} {tr' : Trace}
    (h : retryPrep env job tr = .ok (job', newId, tr')) :
    job'.status = job.status ∧ job'.wechatMediaId = job.wechatMediaId
      ∧ job'.metadata = job.metadata
      ∧ job'.errorMessage = job.errorMessage
      ∧ job'.thumbMediaId = some newId ∧ newId.isEmpty = false := by
  simp only [retryPrep] at h
  split at h
  · exact Except.noConfusion h
  split at h
  · exact Except.noConfusion h
  split at h
  · exact Except.noConfusion h
  split at h
  · exact Except.noConfusion h
  split at h
  · exact Except.noConfusion h
  split at h
  · exact Except.noConfusion h
  split at h
  · exact Except.noConfusion h
  rename_i hne
  injection h with h2
  injection h2 with hj h3
  injection h3 with hid htr
  subst hj
  subst hid
  rw [Bool.not_eq_true] at hne
  exact ⟨rfl, rfl, rfl, rfl, rfl, hne⟩

/-- A failed `retryPrep` leaves the job untouched. -/
theorem retryPrep_error {env : PublishEnv} {job : Job} {tr : Trace}
    {job' : Job} {e : PubErr} {tr' : Trace}
    (h : retryPrep env job tr = .error (job', e, tr')) : job' = job := by
  simp only [retryPrep] at h
  split at h
  · injection h with h2
    injection h2 with hj
    exact hj.symm
  split at h
  · injection h with h2
    injection h2 with hj
    exact hj.symm
  split at h
  · injection h with h2
    injection h2 with hj
    exact hj.symm
  split at h
  · injection h with h2
    injection h2 with hj
    exact hj.symm
  split at h
  · injection h with h2
    injection h2 with hj
    exact hj.symm
  split at h
  · injection h with h2
    injection h2 with hj
    exact hj.symm
  split at h
  · injection h with h2
    injection h2 with hj
    exact hj.symm
  · exact Except.noConfusion h

set_option maxRecDepth 4000 in
/-- The `add_draft` retry loop, started on a job in `PUBLISHING`, always
raises: every failure path lands in the exception handler, and the
success epilogue's save raises because `published_at` is not a field of
the model.  The stored row keeps its media id, and its status is either
`FAILED` (an exception the handler records) or still `PUBLISHING` (the
raising success save, which the handler skips). -/
theorem publishLoop_cases (env : PublishEnv) (placeholder : String) :
    ∀ (n : Nat) (job : Job) (thumbId : String) (tr : Trace),
      job.status = .publishing →
      (∃ e, (publishLoop env placeholder job thumbId tr n).outcome = .error e)
      ∧ (publishLoop env placeholder job thumbId tr n).job.wechatMediaId
          = job.wechatMediaId
      ∧ ((publishLoop env placeholder job thumbId tr n).job.status = .failed
         ∨ (publishLoop env placeholder job thumbId tr n).job.status
             = .publishing) := by
  intro n
  induction n with
  | zero =>
      intro job thumbId tr hst
      simp only [publishLoop]
      cases had : env.addDraft tr.draftCalls with
      | ok mid =>
          simp only []
          by_cases hmi : mid.isEmpty = true
          · rw [if_pos hmi]
            exact ⟨⟨_, failHandler_outcome _ _ _⟩, failHandler_media _ _ _,
              Or.inl (failHandler_publishing _ _ _ hst)⟩
          · rw [if_neg hmi]
            exact ⟨⟨_, rfl⟩, rfl, Or.inr hst⟩
      | error e =>
          simp only []
          exact ⟨⟨_, failHandler_outcome _ _ _⟩, failHandler_media _ _ _,
            Or.inl (failHandler_publishing _ _ _ hst)⟩
  | succ r ih =>
      intro job thumbId tr hst
      rw [publishLoop]
      simp only []
      cases had : env.addDraft tr.draftCalls with
      | ok mid =>
          simp only []
          by_cases hmi : mid.isEmpty = true
          · rw [if_pos hmi]
            exact ⟨⟨_, failHandler_outcome _ _ _⟩, failHandler_media _ _ _,
              Or.inl (failHandler_publishing _ _ _ hst)⟩
          · rw [if_neg hmi]
            exact ⟨⟨_, rfl⟩, rfl, Or.inr hst⟩
      | error e =>
          simp only []
          by_cases hec : e.errcode = some 40007
          · rw [if_pos hec]
            cases hrp : retryPrep env job { tr with draftCalls := tr.draftCalls + 1 } with
            | error a =>
                obtain ⟨job', err, tr'⟩ := a
                simp only []
                obtain rfl : job' = job := retryPrep_error hrp
                exact ⟨⟨_, failHandler_outcome _ _ _⟩, failHandler_media _ _ _,
                  Or.inl (failHandler_publishing _ _ _ hst)⟩
            | ok a =>
                obtain ⟨job', newId, tr'⟩ := a
                simp only []
                obtain ⟨hstat, hmed, _, _, _, _⟩ := retryPrep_ok hrp
                cases hbp : build_draft_payload env.getText (job'.metadata.getD [])
                    placeholder newId with
                | error be =>
                    refine ⟨⟨_, failHandler_outcome _ _ _⟩, ?_,
                      Or.inl (failHandler_publishing _ _ _ (hstat.trans hst))⟩
                    rw [failHandler_media, hmed]
                | ok _ =>
                    obtain ⟨he, hm, hs⟩ := ih job' newId tr' (hstat.trans hst)
                    exact ⟨he, hm.trans hmed, hs⟩
          · rw [if_neg hec]
            exact ⟨⟨_, failHandler_outcome _ _ _⟩, failHandler_media _ _ _,
              Or.inl (failHandler_publishing _ _ _ hst)⟩

/-- Packaging of the failure facts for one `failHandler` exit of
`confirm_and_publish_job`, relative to the job `j` the call was given. -/
theorem errCase (j jmod : Job) (e : PubErr) (tr : Trace)
    (hmedia : jmod.wechatMediaId = j.wechatMediaId)
    (hstatus : (jmod.status = .published) ↔ (j.status = .published)) :
    (∃ e', (failHandler jmod e tr).outcome = .error e')
    ∧ (failHandler jmod e tr).job.wechatMediaId = j.wechatMediaId
    ∧ ((failHandler jmod e tr).job.status = .published ↔ j.status = .published) :=
  ⟨⟨e, failHandler_outcome _ _ _⟩,
   (failHandler_media _ _ _).trans hmedia,
   (failHandler_published_iff _ _ _).trans hstatus⟩

set_option maxRecDepth 4000 in
/-- One `confirm_and_publish_job` call always raises — even a successful
draft submission dies in the success save, whose `update_fields` names
the nonexistent `published_at` — and leaves the stored media id
unchanged and the status `published` only if it already was. -/
theorem confirm_cases (env : PublishEnv) (j : Job) :
    (∃ e, (confirm_and_publish_job env j).outcome = .error e)
    ∧ (confirm_and_publish_job env j).job.wechatMediaId = j.wechatMediaId
    ∧ ((confirm_and_publish_job env j).job.status = .published
        ↔ j.status = .published) := by
  unfold confirm_and_publish_job
  split
  · exact errCase j j _ _ rfl Iff.rfl
  · rename_i hpre
    have hst : j.status = .previewReady := not_not.mp hpre
    simp only []
    split
    · exact errCase j j _ _ rfl Iff.rfl
    split
    · exact errCase j j _ _ rfl Iff.rfl
    split
    · exact errCase j j _ _ rfl Iff.rfl
    split
    · exact errCase j _ _ _ rfl (by simp [hst])
    split
    · exact errCase j _ _ _ rfl (by simp [hst])
    · rename_i tok _
      split
      · exact errCase j _ _ _ rfl (by simp [hst])
      split
      · exact errCase j _ _ _ rfl (by simp [hst])
      · obtain ⟨he, hm, hs⟩ := publishLoop_cases env _ MAX_RETRIES
            { j with status := .publishing } (j.thumbMediaId.getD "")
            { tokenCalls := 1 } rfl
        refine ⟨he, hm, ?_⟩
        rcases hs with hs | hs <;> rw [hs, hst] <;> simp

/-- C1: `confirm_and_publish_job` on a job whose status is not
`PREVIEW_READY` raises the state-conflict error and performs no remote
WeChat call: no token fetch, no thumbnail upload, no draft
submission. -/
theorem c1_confirm_state_conflict_no_api (env : PublishEnv) (job : Job)
    (h : job.status ≠ .previewReady) :
    (confirm_and_publish_job env job).outcome
        = .error (.stateConflict job.status)
      ∧ (confirm_and_publish_job env job).trace.tokenCalls = 0
      ∧ (confirm_and_publish_job env job).trace.draftCalls = 0
      ∧ (confirm_and_publish_job env job).trace.thumbUploadCalls = 0 := by
  unfold confirm_and_publish_job
  rw [if_pos h]
  refine ⟨failHandler_outcome _ _ _, ?_, ?_, ?_⟩ <;> rw [failHandler_trace]

/-- A concrete `confirm_and_publish_job` environment in which the first
draft submission succeeds. -/
def samplePublishEnv : PublishEnv :=
  { appId := "a", secret := "s", getText := id, placeholderSetting := none,
    getToken := fun _ => .ok "TOKEN", addDraft := fun _ => .ok "MID",
    originalCoverIsFile := true, ensureImageSizeRetry := .ok "cover",
    uploadThumb := fun _ => .ok "TH2", hashRetry := none }

/-- A stored job row in `PREVIEW_READY` with a title and thumbnail id. -/
def sampleReadyJob : Job :=
  { status := .previewReady, metadata := some [("title", Val.vStr "T")],
    thumbMediaId := some "TH" }

/-- C1 witness: the state-conflict path on a concrete `PENDING` job. -/
theorem c1_witness :
    (confirm_and_publish_job samplePublishEnv { status := .pending }).outcome
        = .error (.stateConflict .pending)
      ∧ (confirm_and_publish_job samplePublishEnv
          { status := .pending }).trace.tokenCalls = 0
      ∧ (confirm_and_publish_job samplePublishEnv
          { status := .pending }).trace.draftCalls = 0
      ∧ (confirm_and_publish_job samplePublishEnv
          { status := .pending }).trace.thumbUploadCalls = 0 :=
  c1_confirm_state_conflict_no_api samplePublishEnv { status := .pending }
    (by decide)

/-- C2 (code bug): at a concrete `PREVIEW_READY` job with a valid title
and thumbnail, in an environment whose draft submission succeeds
(returning `"MID"`), the call never persists the claimed success
fields.  `models.py` defines no `published_at` field, so the
`job.save(update_fields=JOB_PUBLISH_SUCCESS_FIELDS)` at the success
transition raises `ValueError`; the exception handler skips its `FAILED`
update because the in-memory status is already `PUBLISHED`, and the
stored row keeps status `PUBLISHING` with an empty `wechat_media_id`. -/
theorem c2_success_save_raises :
    (confirm_and_publish_job samplePublishEnv sampleReadyJob).outcome
        = .error (.valueError
          "The following fields do not exist in this model, are m2m fields, or are non-concrete fields: published_at")
      ∧ (confirm_and_publish_job samplePublishEnv sampleReadyJob).job.status
          = .publishing
      ∧ (confirm_and_publish_job samplePublishEnv
          sampleReadyJob).job.wechatMediaId = none := by
  decide

/-- `start_processing_job` never writes `wechat_media_id` and never
leaves the job `PUBLISHED`. -/
theorem start_processing_media_status (env : ProcEnv) :
    (start_processing_job env).job.wechatMediaId = none
      ∧ (start_processing_job env).job.status ≠ .published := by
  simp only [start_processing_job]
  repeat' split
  all_goals simp [procFail]

/-- C5: in every job state reachable through `start_processing_job` and
`confirm_and_publish_job`, the job's `wechat_media_id` is non-empty if
and only if its status is `PUBLISHED`. -/
theorem c5_media_id_iff_published (j : Job) (h : Reachable j) :
    optStrTruthy j.wechatMediaId = true ↔ j.status = .published := by
  induction h with
  | start env =>
      obtain ⟨hm, hs⟩ := start_processing_media_status env
      rw [hm]
      constructor
      · intro hfalse
        exact absurd hfalse (by decide)
      · intro hp
        exact absurd hp hs
  | publish env hr ih =>
      obtain ⟨_, h2, h4⟩ := confirm_cases env _
      rw [h2]
      exact ih.trans h4.symm

/-- C5 witness: the invariant at the concrete job row a concrete
`start_processing_job` run leaves behind. -/
theorem c5_witness :
    optStrTruthy (start_processing_job sampleProcEnv).job.wechatMediaId = true
      ↔ (start_processing_job sampleProcEnv).job.status = .published :=
  c5_media_id_iff_published _ (Reachable.start sampleProcEnv)

/-- A truthy optional string has a non-empty default extraction. -/
theorem optStrTruthy_getD {o : Option String} (h : optStrTruthy o = true) :
    (o.getD "").isEmpty = false := by
  cases o with
  | none => exact absurd h (by decide)
  | some s => simpa [optStrTruthy] using h

/-- `build_draft_payload` succeeds whenever the title is truthy and the
thumbnail id non-empty. -/
theorem build_draft_payload_isOk (getText : String → String) (m : Metadata)
    (html thumb : String)
    (ht : (Metadata.getVal m "title").elim true Val.falsy = false)
    (hth : thumb.isEmpty = false) :
    ∃ p, build_draft_payload getText m html thumb = .ok p := by
  unfold build_draft_payload
  rw [if_neg (by simp [ht]), if_neg (by simp [hth])]
  exact ⟨_, rfl⟩

/-- `retryPrep` outcome when the cover path is stored, the cover file
exists, re-processing succeeds, a fresh non-empty token is obtained and
the re-upload returns a non-empty id: the job gets the new thumbnail id
and the trace gains one token fetch and one thumbnail upload. -/
theorem retryPrep_computes {env : PublishEnv} {job : Job} (tr : Trace)
    {pth t1 tid : String}
    (hcov : optStrTruthy job.originalCoverImagePath = true)
    (hcovfile : env.originalCoverIsFile = true)
    (hpth : env.ensureImageSizeRetry = .ok pth)
    (ht1 : env.getToken tr.tokenCalls = .ok t1) (ht1e : t1.isEmpty = false)
    (htid : env.uploadThumb tr.thumbUploadCalls = .ok tid)
    (htide : tid.isEmpty = false) :
    ∃ tr', retryPrep env job tr
        = .ok ({ job with thumbMediaId := some tid }, tid, tr')
      ∧ tr'.draftCalls = tr.draftCalls
      ∧ tr'.thumbUploadCalls = tr.thumbUploadCalls + 1
      ∧ tr'.tokenCalls = tr.tokenCalls + 1 := by
  simp only [retryPrep]
  rw [if_neg (by simp [hcov]), if_neg (by simp [hcovfile]), hpth]
  simp only []
  rw [ht1]
  simp only []
  rw [if_neg (by simp [ht1e]), htid]
  simp only []
  rw [if_neg (by simp [htide])]
  cases env.hashRetry <;> exact ⟨_, rfl, rfl, rfl, rfl⟩

/-- The retry loop when every `add_draft` attempt fails with the
detected errcode 40007 and the retry-side collaborators succeed: two
submission attempts, one thumbnail re-upload, and a failed job. -/
theorem publishLoop_all40007 (env : PublishEnv) (placeholder : String)
    (job : Job) (thumbId : String) (tr : Trace)
    (hdraft : ∀ n, ∃ msg,
      env.addDraft n = .error { errcode := some 40007, errmsg := msg })
    (hcov : optStrTruthy job.originalCoverImagePath = true)
    (hcovfile : env.originalCoverIsFile = true)
    (hpth : ∃ pth, env.ensureImageSizeRetry = .ok pth)
    (htok : ∀ n, ∃ t, env.getToken n = .ok t ∧ t.isEmpty = false)
    (hupl : ∀ n, ∃ tid, env.uploadThumb n = .ok tid ∧ tid.isEmpty = false)
    (htitle : (Metadata.getVal (job.metadata.getD []) "title").elim true
        Val.falsy = false)
    (hst : job.status = .publishing) :
    (publishLoop env placeholder job thumbId tr 1).trace.draftCalls
        = tr.draftCalls + 2
      ∧ (publishLoop env placeholder job thumbId tr 1).trace.thumbUploadCalls
          = tr.thumbUploadCalls + 1
      ∧ (publishLoop env placeholder job thumbId tr 1).job.status = .failed
      ∧ ∃ e, (publishLoop env placeholder job thumbId tr 1).outcome
          = .error e := by
  obtain ⟨m0, hd0⟩ := hdraft tr.draftCalls
  rw [publishLoop]
  simp only []
  rw [hd0]
  simp only []
  simp only [if_true]
  obtain ⟨t1, ht1, ht1e⟩ :=
    htok ({ tr with draftCalls := tr.draftCalls + 1 } : Trace).tokenCalls
  obtain ⟨tid, htid, htide⟩ :=
    hupl ({ tr with draftCalls := tr.draftCalls + 1 } : Trace).thumbUploadCalls
  obtain ⟨tr', hrp, htrd, htru, _⟩ :=
    retryPrep_computes { tr with draftCalls := tr.draftCalls + 1 }
      hcov hcovfile hpth.choose_spec ht1 ht1e htid htide
  have htrd2 : tr'.draftCalls = tr.draftCalls + 1 := htrd.trans rfl
  have htru2 : tr'.thumbUploadCalls = tr.thumbUploadCalls + 1 := htru.trans rfl
  rw [hrp]
  simp only []
  obtain ⟨p, hbp⟩ := build_draft_payload_isOk env.getText
    (job.metadata.getD []) placeholder tid htitle htide
  rw [hbp]
  simp only []
  obtain ⟨m1, hd1⟩ := hdraft tr'.draftCalls
  rw [publishLoop]
  simp only []
  rw [hd1]
  simp only []
  refine ⟨?_, ?_, ?_, ⟨_, failHandler_outcome _ _ _⟩⟩
  · rw [failHandler_trace]
    show tr'.draftCalls + 1 = tr.draftCalls + 2
    omega
  · rw [failHandler_trace]
    show tr'.thumbUploadCalls = tr.thumbUploadCalls + 1
    exact htru2
  · exact failHandler_publishing _ _ _ hst

/-- Under the pre-flight happy path, `confirm_and_publish_job` reduces
to the retry loop started on the `PUBLISHING` job with one token call
already traced. -/
theorem confirm_reaches_loop (env : PublishEnv) (job : Job) {t0 : String}
    (hst : job.status = .previewReady)
    (hmeta : job.metadata.isNone = false)
    (htitle : (Metadata.getVal (job.metadata.getD []) "title").elim true
        Val.falsy = false)
    (hthumb : optStrTruthy job.thumbMediaId = true)
    (happ : env.appId.isEmpty = false) (hsec : env.secret.isEmpty = false)
    (ht0 : env.getToken 0 = .ok t0) (ht0e : t0.isEmpty = false) :
    confirm_and_publish_job env job
      = publishLoop env (resolvePlaceholder env.placeholderSetting)
          { job with status := .publishing } (job.thumbMediaId.getD "")
          { tokenCalls := 1 } MAX_RETRIES := by
  unfold confirm_and_publish_job
  rw [if_neg (by simp [hst])]
  simp only []
  rw [if_neg (by simp [hmeta]), if_neg (by simp [htitle]),
    if_neg (by simp [hthumb]), if_neg (by simp [happ, hsec]), ht0]
  simp only []
  rw [if_neg (by simp [ht0e])]
  obtain ⟨p, hbp⟩ := build_draft_payload_isOk env.getText (job.metadata.getD [])
    (resolvePlaceholder env.placeholderSetting) (job.thumbMediaId.getD "")
    htitle (optStrTruthy_getD hthumb)
  rw [hbp]

/-- C3: for every `confirm_and_publish_job` call in which every draft
submission attempt fails with the detected expired-media errcode 40007
(and the retry-side collaborators succeed, as in the spec's mocked
scenario), the call performs exactly two submission attempts and exactly
one thumbnail re-upload, and the job is marked `FAILED`. -/
theorem c3_retry_exhausted_counts (env : PublishEnv) (job : Job)
    (hst : job.status = .previewReady)
    (hmeta : job.metadata.isNone = false)
    (htitle : (Metadata.getVal (job.metadata.getD []) "title").elim true
        Val.falsy = false)
    (hthumb : optStrTruthy job.thumbMediaId = true)
    (happ : env.appId.isEmpty = false) (hsec : env.secret.isEmpty = false)
    (htok : ∀ n, ∃ t, env.getToken n = .ok t ∧ t.isEmpty = false)
    (hdraft : ∀ n, ∃ msg,
      env.addDraft n = .error { errcode := some 40007, errmsg := msg })
    (hcov : optStrTruthy job.originalCoverImagePath = true)
    (hcovfile : env.originalCoverIsFile = true)
    (hpth : ∃ pth, env.ensureImageSizeRetry = .ok pth)
    (hupl : ∀ n, ∃ tid, env.uploadThumb n = .ok tid ∧ tid.isEmpty = false) :
    (confirm_and_publish_job env job).trace.draftCalls = 2
      ∧ (confirm_and_publish_job env job).trace.thumbUploadCalls = 1
      ∧ (confirm_and_publish_job env job).job.status = .failed
      ∧ ∃ e, (confirm_and_publish_job env job).outcome = .error e := by
  obtain ⟨t0, ht0, ht0e⟩ := htok 0
  rw [confirm_reaches_loop env job hst hmeta htitle hthumb happ hsec ht0 ht0e]
  simp only [MAX_RETRIES]
  obtain ⟨hA, hB, hC, hD⟩ :=
    publishLoop_all40007 env (resolvePlaceholder env.placeholderSetting)
      { job with status := .publishing } (job.thumbMediaId.getD "")
      { tokenCalls := 1 } hdraft hcov hcovfile hpth htok hupl htitle rfl
  exact ⟨hA.trans rfl, hB.trans rfl, hC, hD⟩

/-- A concrete environment whose every `add_draft` call fails with the
expired-media code 40007 and whose retry-side collaborators succeed. -/
def retryFailEnv : PublishEnv :=
  { appId := "a", secret := "s", getText := id, placeholderSetting := none,
    getToken := fun _ => .ok "TOKEN",
    addDraft := fun _ =>
      .error { errcode := some 40007, errmsg := "invalid media_id" },
    originalCoverIsFile := true, ensureImageSizeRetry := .ok "cover",
    uploadThumb := fun _ => .ok "TH2", hashRetry := none }

/-- A `PREVIEW_READY` job with a stored cover path, for the retry
scenario. -/
def retryJob : Job :=
  { status := .previewReady, metadata := some [("title", Val.vStr "T")],
    thumbMediaId := some "TH", originalCoverImagePath := some "cover.jpg" }

/-- C3 witness: the exhausted-retry scenario at concrete inputs. -/
theorem c3_witness :
    (confirm_and_publish_job retryFailEnv retryJob).trace.draftCalls = 2
      ∧ (confirm_and_publish_job retryFailEnv retryJob).trace.thumbUploadCalls
          = 1
      ∧ (confirm_and_publish_job retryFailEnv retryJob).job.status = .failed
      ∧ ∃ e, (confirm_and_publish_job retryFailEnv retryJob).outcome
          = .error e :=
  c3_retry_exhausted_counts retryFailEnv retryJob (by decide) (by decide)
    (by decide) (by decide) (by decide) (by decide)
    (fun _ => ⟨"TOKEN", rfl, by decide⟩)
    (fun _ => ⟨"invalid media_id", rfl⟩)
    (by decide) (by decide) ⟨"cover", rfl⟩
    (fun _ => ⟨"TH2", rfl, by decide⟩)

/-- C6: when the content digest of a (resolved, size-checked) content
image has a cached failure entry, the uploader callback returns that
cached failure, makes no upload call, writes nothing to either cache,
and appends exactly one skip warning to the job's warning list. -/
theorem c6_cached_failure_skips_upload (env : CbEnv) (img : String)
    (st : CbState) (processed h errMsg : String)
    (htok : env.accessToken.isEmpty = false)
    (hurl : env.baseUrl.isEmpty = false)
    (habs : env.isAbsolute img = true)
    (hfile : env.isFile img = true)
    (hsize : env.ensureSize img = .ok processed)
    (hpfile : env.isFile processed = true)
    (hhash : env.fileHash processed = some h)
    (hcache : cachedLookup env st ("wechat_content_url_sha256_" ++ h)
        = some (none, some errMsg)) :
    wechat_image_uploader_callback env img st
      = ((none, some errMsg),
         { st with warnings := st.warnings
            ++ ["Image skipped (previous failure): " ++ pathName processed] })
      ∧ (wechat_image_uploader_callback env img st).2.uploadCalls
          = st.uploadCalls
      ∧ (wechat_image_uploader_callback env img st).2.localCache
          = st.localCache
      ∧ (wechat_image_uploader_callback env img st).2.djangoCacheSets
          = st.djangoCacheSets := by
  have hmain : wechat_image_uploader_callback env img st
      = ((none, some errMsg),
         { st with warnings := st.warnings
            ++ ["Image skipped (previous failure): " ++ pathName processed] }) := by
    unfold wechat_image_uploader_callback
    rw [if_neg (by simp [htok, hurl])]
    simp only [habs, Bool.not_true, Bool.false_eq_true, if_false,
      hfile, hsize, hpfile, hhash, Option.map_some']
    simp only [hcache]
  exact ⟨hmain, by rw [hmain], by rw [hmain], by rw [hmain]⟩

/-- A concrete callback environment whose cache records a failed
previous upload for the image's digest. -/
def cachedFailEnv : CbEnv :=
  { accessToken := "TOKEN", baseUrl := "https://api", mdDirJoin := fun s => s,
    isAbsolute := fun _ => true, isFile := fun _ => true,
    resolveStrict := fun s => some s, ensureSize := fun s => .ok s,
    fileHash := fun _ => some "HASH",
    djangoCacheGet := fun k =>
      if k == "wechat_content_url_sha256_HASH" then
        some (none, some "previous failure")
      else none,
    upload := fun _ => .ok "https://img" }

/-- C6 witness: the cached-failure skip at concrete inputs — one skip
warning appended, no upload call, no cache write. -/
theorem c6_witness :
    wechat_image_uploader_callback cachedFailEnv "img.png" {}
      = ((none, some "previous failure"),
         { ({} : CbState) with warnings := ({} : CbState).warnings
            ++ ["Image skipped (previous failure): " ++ pathName "img.png"] })
      ∧ (wechat_image_uploader_callback cachedFailEnv "img.png" {}).2.uploadCalls
          = ({} : CbState).uploadCalls
      ∧ (wechat_image_uploader_callback cachedFailEnv "img.png" {}).2.localCache
          = ({} : CbState).localCache
      ∧ (wechat_image_uploader_callback cachedFailEnv
          "img.png" {}).2.djangoCacheSets = ({} : CbState).djangoCacheSets :=
  c6_cached_failure_skips_upload cachedFailEnv "img.png" {} "img.png"
    "HASH" "previous failure" (by decide) (by decide) rfl rfl rfl rfl rfl
    (by decide)

/-- Setting one attribute key leaves lookups of a different key
unchanged. -/
theorem getAttr_setAttr_ne (attrs : List (String × String)) (k k' v : String)
    (h : (k == k') = false) :
    getAttr (setAttr attrs k v) k' = getAttr attrs k' := by
  unfold setAttr
  split
  all_goals rename_i hcond
  all_goals clear hcond
  · induction attrs with
    | nil => rfl
    | cons a rest ih =>
        unfold getAttr at ih ⊢
        rw [List.map_cons, List.find?_cons, List.find?_cons]
        by_cases hak : (a.1 == k) = true
        · rw [if_pos hak]
          have h2 : (a.1 == k') = false := by
            rw [eq_of_beq hak]
            exact h
          simp only [h, h2, cond_false]
          exact ih
        · rw [if_neg hak]
          by_cases hak' : (a.1 == k') = true
          · simp only [hak', cond_true]
          · simp only [Bool.not_eq_true] at hak'
            simp only [hak', cond_false]
            exact ih
  · induction attrs with
    | nil =>
        unfold getAttr
        simp [List.find?, h]
    | cons a rest ih =>
        unfold getAttr at ih ⊢
        rw [List.cons_append, List.find?_cons, List.find?_cons]
        by_cases hak' : (a.1 == k') = true
        · simp only [hak', cond_true]
        · simp only [Bool.not_eq_true] at hak'
          simp only [hak', cond_false]
          exact ih

/-- C4 (amended): a content image whose `src` resolves neither relative
to the markdown directory nor in the central content-images directory
keeps its original `src` attribute (only the `alt` default may be
added), and the uploader callback is never invoked: its state — which
carries the job's warning list — is returned unchanged, so no warning is
appended; the traversal returns normally, so the job does not fail. -/
theorem c4_missing_image_keeps_src_no_warning {σ : Type} (env : ImgEnv)
    (upl : String → σ → Option String × σ) (attrs : List (String × String))
    (cs : List Node) (src : String) (st : σ)
    (hsrc : getAttr attrs "src" = some src)
    (hmatch : localImageSrcMatch src = true)
    (h1 : env.resolveRelativeToMd src = none)
    (h2 : env.resolveCentral src = none) :
    ∃ attrs',
      findReplaceImages env upl (.elem "img" attrs cs) st
          = (.elem "img" attrs' cs, st)
        ∧ getAttr attrs' "src" = some src := by
  have hsrc2 : getAttr (setAttr attrs "alt" ((getAttr attrs "alt").getD ""))
      "src" = some src := by
    rw [getAttr_setAttr_ne _ _ _ _ (by decide)]
    exact hsrc
  refine ⟨setAttr attrs "alt" ((getAttr attrs "alt").getD ""), ?_, hsrc2⟩
  rw [findReplaceImages]
  rw [if_pos (by decide)]
  simp only []
  rw [hsrc2]
  simp only []
  rw [if_neg (by simp [hmatch]), h1]
  simp only []
  rw [h2]

/-- The resolution environment for an image that exists nowhere on
disk. -/
def imgNoneEnv : ImgEnv :=
  { resolveRelativeToMd := fun _ => none, resolveCentral := fun _ => none }

/-- C4 counterexample: a markdown-referenced image absent from disk, run
through `_find_and_replace_local_images` with the real uploader callback
(on a concrete environment) as the `adapted_uploader`.  The original
`src` is kept and the job does not fail — but the job's warning list
stays empty: it does not receive exactly one warning as the claim
states, because the callback (the only code that appends warnings) is
never invoked for an unresolvable image. -/
theorem c4_counterexample :
    (findReplaceImages imgNoneEnv (adaptedUploader cachedFailEnv)
        (.elem "p" [] [.elem "img" [("src", "missing.png")] []])
        {}).2.warnings = []
      ∧ ¬((findReplaceImages imgNoneEnv (adaptedUploader cachedFailEnv)
          (.elem "p" [] [.elem "img" [("src", "missing.png")] []])
          {}).2.warnings.length = 1)
      ∧ (findReplaceImages imgNoneEnv (adaptedUploader cachedFailEnv)
          (.elem "p" [] [.elem "img" [("src", "missing.png")] []]) {}).1
        = .elem "p" []
            [.elem "img" [("src", "missing.png"), ("alt", "")] []] :=
  ⟨rfl, by decide, rfl⟩

/-- C4 witness: the amended theorem at the concrete missing image, with
the real uploader callback carrying the (empty, unchanged) warning
list. -/
theorem c4_witness :
    ∃ attrs',
      findReplaceImages imgNoneEnv (adaptedUploader cachedFailEnv)
          (.elem "img" [("src", "missing.png")] []) {}
        = (.elem "img" attrs' [], ({} : CbState))
      ∧ getAttr attrs' "src" = some "missing.png" :=
  c4_missing_image_keeps_src_no_warning imgNoneEnv
    (adaptedUploader cachedFailEnv) [("src", "missing.png")] []
    "missing.png" {} rfl (by decide) rfl rfl

theorem removeHeadingIdsList_map (l : List Node) :
    removeHeadingIdsList l = l.map removeHeadingIds := by
  induction l with
  | nil => rfl
  | cons n rest ih => rw [removeHeadingIdsList, List.map_cons, ih]

theorem wrapHeadingsList_map (l : List Node) :
    wrapHeadingsList l = l.map wrapHeadings := by
  induction l with
  | nil => rfl
  | cons n rest ih => rw [wrapHeadingsList, List.map_cons, ih]

/-- The image-replacement pass maps each node in document order,
threading the callback state. -/
theorem findReplaceImagesList_cons {σ : Type} (env : ImgEnv)
    (upl : String → σ → Option String × σ) (n : Node) (rest : List Node)
    (st : σ) :
    (findReplaceImagesList env upl (n :: rest) st).1
      = (findReplaceImages env upl n st).1
        :: (findReplaceImagesList env upl rest
            (findReplaceImages env upl n st).2).1 := by
  rw [findReplaceImagesList]

/-- Every node of the input reappears, image-processed under some
intermediate state, in the output of the image-replacement pass. -/
theorem mem_findReplaceImagesList {σ : Type} (env : ImgEnv)
    (upl : String → σ → Option String × σ) :
    ∀ (l : List Node) (st : σ) (n : Node), n ∈ l →
      ∃ st', (findReplaceImages env upl n st').1
          ∈ (findReplaceImagesList env upl l st).1 := by
  intro l
  induction l with
  | nil =>
      intro st n h
      exact absurd h (List.not_mem_nil n)
  | cons x rest ih =>
      intro st n h
      rcases List.mem_cons.mp h with rfl | hm
      · refine ⟨st, ?_⟩
        rw [findReplaceImagesList_cons]
        exact List.mem_cons_self _ _
      · obtain ⟨st', hst⟩ := ih (findReplaceImages env upl x st).2 n hm
        refine ⟨st', ?_⟩
        rw [findReplaceImagesList_cons]
        exact List.mem_cons_of_mem _ hst

/-- No heading tag is `img`. -/
theorem headingTag_ne_img {tag : String} (h : headingTags.contains tag = true) :
    (tag == "img") = false := by
  simp [headingTags, List.contains] at h
  rcases h with rfl | rfl | rfl | rfl | rfl | rfl <;> decide

/-- `_wrap_heading_content` on a heading holding one non-whitespace text
node: the three styling spans, with the text inside the `content`
span. -/
theorem wrapHeadChildren_text (s : String) (hs : (pyStrip s).isEmpty = false) :
    wrapHeadChildren [.text s]
      = [ .elem "span" [("class", "prefix")] [],
          .elem "span" [("class", "content")] [.text s],
          .elem "span" [("class", "suffix")] [] ] := by
  unfold wrapHeadChildren
  simp [isWhitespaceOnlyText, hs]

theorem wrapHeadings_heading (tag : String) (attrs : List (String × String))
    (s : String) (ht : headingTags.contains tag = true) :
    wrapHeadings (.elem tag attrs [.text s])
      = .elem tag attrs (wrapHeadChildren [.text s]) := by
  rw [wrapHeadings, if_pos ht, if_neg (by simp [hasDirectContentSpan])]

theorem removeHeadingIds_heading (tag : String) (attrs : List (String × String))
    (s : String) (ht : headingTags.contains tag = true) :
    removeHeadingIds (.elem tag attrs [.text s])
      = .elem tag (attrs.filter (fun p => p.1 != "id")) [.text s] := by
  rw [removeHeadingIds]
  simp only [ht, if_true]
  rfl

/-- The image pass does not touch a heading wrapped around text: its tag
is not `img`, its spans hold no images. -/
theorem findReplace_heading_node {σ : Type} (env : ImgEnv)
    (upl : String → σ → Option String × σ) (tag : String)
    (attrs : List (String × String)) (s : String) (st : σ)
    (hne : (tag == "img") = false) :
    findReplaceImages env upl
        (.elem tag attrs
          [ .elem "span" [("class", "prefix")] [],
            .elem "span" [("class", "content")] [.text s],
            .elem "span" [("class", "suffix")] [] ]) st
      = (.elem tag attrs
          [ .elem "span" [("class", "prefix")] [],
            .elem "span" [("class", "content")] [.text s],
            .elem "span" [("class", "suffix")] [] ], st) := by
  rw [findReplaceImages, if_neg (by simp [hne])]
  rfl

/-- C9: a rendered fragment holding a heading element whose content is a
single non-whitespace text node — the markdown library's output for
`# Title` — still holds, after `process_html_content`'s heading-id
removal, span wrapping and image replacement, a heading element of the
same tag whose visible text content is exactly that text. -/
theorem c9_heading_text_preserved {σ : Type} (env : ImgEnv)
    (upl : String → σ → Option String × σ) (fragment : List Node) (st : σ)
    (tag : String) (attrs : List (String × String)) (s : String)
    (ht : headingTags.contains tag = true)
    (hs : (pyStrip s).isEmpty = false)
    (hmem : Node.elem tag attrs [Node.text s] ∈ fragment) :
    ∃ n ∈ (process_html_content_tree env upl fragment st).1,
      (∃ attrs2 cs, n = Node.elem tag attrs2 cs) ∧ n.textContent = s := by
  unfold process_html_content_tree
  have hm1 : removeHeadingIds (.elem tag attrs [.text s])
      ∈ removeHeadingIdsList fragment := by
    rw [removeHeadingIdsList_map]
    exact List.mem_map_of_mem _ hmem
  have hm2 : wrapHeadings (removeHeadingIds (.elem tag attrs [.text s]))
      ∈ wrapHeadingsList (removeHeadingIdsList fragment) := by
    rw [wrapHeadingsList_map]
    exact List.mem_map_of_mem _ hm1
  have hwrap : wrapHeadings (removeHeadingIds (.elem tag attrs [.text s]))
      = .elem tag (attrs.filter (fun p => p.1 != "id"))
          [ .elem "span" [("class", "prefix")] [],
            .elem "span" [("class", "content")] [.text s],
            .elem "span" [("class", "suffix")] [] ] := by
    rw [removeHeadingIds_heading tag attrs s ht,
      wrapHeadings_heading tag _ s ht, wrapHeadChildren_text s hs]
  obtain ⟨st', hmem2⟩ := mem_findReplaceImagesList env upl _ st _ hm2
  rw [hwrap, findReplace_heading_node env upl tag _ s st'
    (headingTag_ne_img ht)] at hmem2
  refine ⟨_, hmem2, ⟨_, _, rfl⟩, ?_⟩
  show Node.textContent (.elem tag _
    [ .elem "span" [("class", "prefix")] [],
      .elem "span" [("class", "content")] [.text s],
      .elem "span" [("class", "suffix")] [] ]) = s
  show "" ++ ((s ++ "") ++ ("" ++ "")) = s
  simp

/-- C9 witness: the markdown rendering of `# Title` (an `h1` with a
toc-generated id), processed with the real uploader callback. -/
theorem c9_witness :
    ∃ n ∈ (process_html_content_tree imgNoneEnv (adaptedUploader cachedFailEnv)
        [Node.elem "h1" [("id", "title")] [Node.text "Title"]]
        ({} : CbState)).1,
      (∃ attrs2 cs, n = Node.elem "h1" attrs2 cs) ∧ n.textContent = "Title" :=
  c9_heading_text_preserved imgNoneEnv (adaptedUploader cachedFailEnv)
    [Node.elem "h1" [("id", "title")] [Node.text "Title"]] {} "h1"
    [("id", "title")] "Title" (by decide) (by decide)
    (List.mem_singleton.mpr rfl)

end WPW
